import Mathlib

/-!
Verification of the conversation state machine and intent-routing/filtering
engine of the camp chatbot repository.

The development shallowly embeds, from the Python sources:
  * `src/backend/app/agents/camp_agent_dynamic.py` — the profile-collection
    state machine (`collect_profile_node`), the profile-driven pipeline
    (`_process_request_node`, `generate_sql_query_node`, `search_database_node`,
    `format_table_node`) and `CampAgent._is_profile_complete`;
  * `src/backend/agents/camp_agent_dynamic.py` — the intent classifier
    (`classify_intent_node`) and the cached-result filter engine
    (`filter_cached_results_node`);
  * `src/backend/app/models/schemas.py` — `UserProfile`, `CampChatState`.

External collaborators (the LLM, the database, the category list) are
modelled as parameters, as the spec directs.  Machine floats in the source
(`max_distance_miles`, `float(...)` parsing) are modelled as rationals.
Python dicts with string keys are modelled as association lists of
`String × Json`; Python truthiness is `Json.truthy` below.
-/

/-- JSON values, as produced by Python's `json.loads` on classifier output,
doubling as the value type of Python dicts in the embedding.  Parsed
numbers are integers (`num`): the embedded parser rejects fractional and
exponent literals (see `parseNumChars`), and every number the classifier
itself builds is integral.  `qnum` carries the Python float that
`generate_sql_query_node` stores under `max_driving_distance_miles`. -/
inductive Json where
  | null : Json
  | bool : Bool → Json
  | num : Int → Json
  | qnum : ℚ → Json
  | str : String → Json
  | arr : List Json → Json
  | obj : List (String × Json) → Json

mutual

/-- Boolean equality on JSON values. -/
def Json.beq : Json → Json → Bool
  | .null, .null => true
  | .bool a, .bool b => a == b
  | .num a, .num b => a == b
  | .qnum a, .qnum b => a == b
  | .str a, .str b => a == b
  | .arr xs, .arr ys => Json.beqArr xs ys
  | .obj xs, .obj ys => Json.beqObj xs ys
  | _, _ => false

/-- Boolean equality on JSON arrays. -/
def Json.beqArr : List Json → List Json → Bool
  | [], [] => true
  | x :: xs, y :: ys => Json.beq x y && Json.beqArr xs ys
  | _, _ => false

/-- Boolean equality on JSON object member lists. -/
def Json.beqObj : List (String × Json) → List (String × Json) → Bool
  | [], [] => true
  | (k, v) :: xs, (l, w) :: ys => k == l && Json.beq v w && Json.beqObj xs ys
  | _, _ => false

end

/-- Every JSON value has positive size. -/
theorem Json.sizeOf_pos (a : Json) : 0 < sizeOf a := by
  cases a <;> simp

/-- `Json.beq` is reflexive (strong induction on size). -/
theorem Json.beq_refl : ∀ (n : Nat) (a : Json), sizeOf a ≤ n → Json.beq a a = true := by
  intro n
  induction n with
  | zero => intro a h; exact absurd (lt_of_lt_of_le (Json.sizeOf_pos a) h) (by simp)
  | succ n ih =>
    intro a h
    cases a with
    | null => rfl
    | bool b => simp [Json.beq]
    | num q => simp [Json.beq]
    | qnum q => simp [Json.beq]
    | str s => simp [Json.beq]
    | arr xs =>
      simp only [Json.beq]
      simp only [Json.arr.sizeOf_spec] at h
      induction xs with
      | nil => rfl
      | cons x xs ihx =>
        simp only [List.cons.sizeOf_spec] at h
        have h1 : sizeOf x ≤ n := by omega
        have h2 : 1 + sizeOf xs ≤ 1 + (1 + sizeOf xs) := by omega
        simp only [Json.beqArr, Bool.and_eq_true]
        exact ⟨ih x h1, ihx (by omega)⟩
    | obj kvs =>
      simp only [Json.beq]
      simp only [Json.obj.sizeOf_spec] at h
      induction kvs with
      | nil => rfl
      | cons kv kvs ihx =>
        obtain ⟨k, v⟩ := kv
        simp only [List.cons.sizeOf_spec, Prod.mk.sizeOf_spec] at h
        simp only [Json.beqObj, Bool.and_eq_true]
        exact ⟨⟨by simp, ih v (by omega)⟩, ihx (by omega)⟩

/-- `Json.beq` implies equality (strong induction on size). -/
theorem Json.eq_of_beq_aux :
    ∀ (n : Nat) (a b : Json), sizeOf a ≤ n → Json.beq a b = true → a = b := by
  intro n
  induction n with
  | zero => intro a b h _; exact absurd (lt_of_lt_of_le (Json.sizeOf_pos a) h) (by simp)
  | succ n ih =>
    intro a b h hb
    cases a with
    | null =>
      cases b with
      | null => rfl
      | bool y => exact absurd hb (by simp [Json.beq])
      | num y => exact absurd hb (by simp [Json.beq])
      | qnum y => exact absurd hb (by simp [Json.beq])
      | str y => exact absurd hb (by simp [Json.beq])
      | arr ys => exact absurd hb (by simp [Json.beq])
      | obj ys => exact absurd hb (by simp [Json.beq])
    | bool x =>
      cases b with
      | bool y => simp only [Json.beq, beq_iff_eq] at hb; rw [hb]
      | null => exact absurd hb (by simp [Json.beq])
      | num y => exact absurd hb (by simp [Json.beq])
      | qnum y => exact absurd hb (by simp [Json.beq])
      | str y => exact absurd hb (by simp [Json.beq])
      | arr ys => exact absurd hb (by simp [Json.beq])
      | obj ys => exact absurd hb (by simp [Json.beq])
    | num x =>
      cases b with
      | num y => simp only [Json.beq, beq_iff_eq] at hb; rw [hb]
      | null => exact absurd hb (by simp [Json.beq])
      | bool y => exact absurd hb (by simp [Json.beq])
      | qnum y => exact absurd hb (by simp [Json.beq])
      | str y => exact absurd hb (by simp [Json.beq])
      | arr ys => exact absurd hb (by simp [Json.beq])
      | obj ys => exact absurd hb (by simp [Json.beq])
    | qnum x =>
      cases b with
      | qnum y => simp only [Json.beq, beq_iff_eq] at hb; rw [hb]
      | null => exact absurd hb (by simp [Json.beq])
      | bool y => exact absurd hb (by simp [Json.beq])
      | num y => exact absurd hb (by simp [Json.beq])
      | str y => exact absurd hb (by simp [Json.beq])
      | arr ys => exact absurd hb (by simp [Json.beq])
      | obj ys => exact absurd hb (by simp [Json.beq])
    | str x =>
      cases b with
      | str y => simp only [Json.beq, beq_iff_eq] at hb; rw [hb]
      | null => exact absurd hb (by simp [Json.beq])
      | bool y => exact absurd hb (by simp [Json.beq])
      | num y => exact absurd hb (by simp [Json.beq])
      | qnum y => exact absurd hb (by simp [Json.beq])
      | arr ys => exact absurd hb (by simp [Json.beq])
      | obj ys => exact absurd hb (by simp [Json.beq])
    | arr xs =>
      cases b with
      | null => exact absurd hb (by simp [Json.beq])
      | bool y => exact absurd hb (by simp [Json.beq])
      | num y => exact absurd hb (by simp [Json.beq])
      | qnum y => exact absurd hb (by simp [Json.beq])
      | str y => exact absurd hb (by simp [Json.beq])
      | obj ys => exact absurd hb (by simp [Json.beq])
      | arr ys =>
        simp only [Json.beq] at hb
        simp only [Json.arr.sizeOf_spec] at h
        congr 1
        induction xs generalizing ys with
        | nil => cases ys with
          | nil => rfl
          | cons y ys => exact absurd hb (by simp [Json.beqArr])
        | cons x xs ihx =>
          cases ys with
          | nil => exact absurd hb (by simp [Json.beqArr])
          | cons y ys =>
            simp only [List.cons.sizeOf_spec] at h
            simp only [Json.beqArr, Bool.and_eq_true] at hb
            have hx : x = y := ih x y (by omega) hb.1
            have hxs : xs = ys := ihx ys hb.2 (by omega)
            rw [hx, hxs]
    | obj xs =>
      cases b with
      | null => exact absurd hb (by simp [Json.beq])
      | bool y => exact absurd hb (by simp [Json.beq])
      | num y => exact absurd hb (by simp [Json.beq])
      | qnum y => exact absurd hb (by simp [Json.beq])
      | str y => exact absurd hb (by simp [Json.beq])
      | arr ys => exact absurd hb (by simp [Json.beq])
      | obj ys =>
        simp only [Json.beq] at hb
        simp only [Json.obj.sizeOf_spec] at h
        congr 1
        induction xs generalizing ys with
        | nil => cases ys with
          | nil => rfl
          | cons y ys => exact absurd hb (by simp [Json.beqObj])
        | cons kv xs ihx =>
          cases ys with
          | nil =>
            obtain ⟨k, v⟩ := kv
            exact absurd hb (by simp [Json.beqObj])
          | cons lw ys =>
            obtain ⟨k, v⟩ := kv
            obtain ⟨l, w⟩ := lw
            simp only [List.cons.sizeOf_spec, Prod.mk.sizeOf_spec] at h
            simp only [Json.beqObj, Bool.and_eq_true] at hb
            have hk : k = l := by have := hb.1.1; simpa using this
            have hv : v = w := ih v w (by omega) hb.1.2
            have hxs : xs = ys := ihx ys hb.2 (by omega)
            rw [hk, hv, hxs]

instance : DecidableEq Json := fun a b =>
  if h : Json.beq a b = true then
    isTrue (Json.eq_of_beq_aux (sizeOf a) a b le_rfl h)
  else
    isFalse (fun he => h (he ▸ Json.beq_refl (sizeOf a) a le_rfl))

/-- Python `v == "lit"` for a JSON value against a string literal. -/
def Json.isStr : Json → String → Bool
  | .str t, s => t = s
  | _, _ => false

/-- Python truthiness of a JSON value (`bool(v)`): `None`, `False`, `0`,
`""`, `[]` and `{}` are falsy. -/
def Json.truthy : Json → Bool
  | .null => false
  | .bool b => b
  | .num q => q ≠ 0
  | .qnum q => q ≠ 0
  | .str s => s ≠ ""
  | .arr xs => ¬ xs.isEmpty
  | .obj kvs => ¬ kvs.isEmpty

/-- `d.get(k)` on a Python dict modelled as an association list in insertion
order; on duplicate keys the last binding wins, as in a Python dict. -/
def jget (kvs : List (String × Json)) (k : String) : Option Json :=
  kvs.reverse.lookup k

/-! ### String primitives

The embedding uses character-list implementations of the Python string
operations (`strip`, `lower`, `split`, `in`, slicing, `join`), so that every
definition evaluates inside the kernel. -/

/-- `a` is a prefix of `b` (character lists). -/
def isPrefixList : List Char → List Char → Bool
  | [], _ => true
  | _ :: _, [] => false
  | a :: as, b :: bs => a = b && isPrefixList as bs

/-- `pat` occurs as a contiguous substring of `s` (character lists). -/
def containsList (pat : List Char) : List Char → Bool
  | [] => isPrefixList pat []
  | c :: cs => isPrefixList pat (c :: cs) || containsList pat cs

/-- `pat in s` on Python strings: substring containment. -/
def containsSub (s pat : String) : Bool :=
  containsList pat.toList s.toList

/-- Python `s.strip()` (ASCII whitespace, which covers every input in
scope). -/
def strTrim (s : String) : String :=
  String.mk (((s.toList.dropWhile Char.isWhitespace).reverse.dropWhile
    Char.isWhitespace).reverse)

/-- Python `s.lower()`. -/
def strLower (s : String) : String :=
  String.mk (s.toList.map Char.toLower)

/-- Python `s.startswith(pat)`. -/
def strStartsWith (s pat : String) : Bool :=
  isPrefixList pat.toList s.toList

/-- Python `s.endswith(pat)`. -/
def strEndsWith (s pat : String) : Bool :=
  isPrefixList pat.toList.reverse s.toList.reverse

/-- Python `s[n:]`. -/
def strDrop (s : String) (n : Nat) : String :=
  String.mk (s.toList.drop n)

/-- Python `s[:-n]` for positive `n` (and `s[:k]` via `strTake`). -/
def strDropRight (s : String) (n : Nat) : String :=
  String.mk (s.toList.take (s.toList.length - n))

/-- Python `s[:n]`. -/
def strTake (s : String) (n : Nat) : String :=
  String.mk (s.toList.take n)

/-- Python `len(s)`. -/
def strLen (s : String) : Nat :=
  s.toList.length

/-- Splitting accumulator for `splitOnCharStr`. -/
def splitAux (c : Char) : List Char → List Char → List (List Char)
  | [], acc => [acc.reverse]
  | x :: xs, acc =>
      if x = c then acc.reverse :: splitAux c xs [] else splitAux c xs (x :: acc)

/-- Python `s.split(c)` for a one-character separator. -/
def splitOnCharStr (s : String) (c : Char) : List String :=
  (splitAux c s.toList []).map String.mk

/-- Python `sep.join(xs)`. -/
def joinSep (sep : String) : List String → String
  | [] => ""
  | x :: rest => rest.foldl (fun acc y => acc ++ sep ++ y) x

/-- Python's `int(x)` on a string: optional surrounding whitespace, optional
sign, then decimal digits.  (Underscore digit grouping, accepted by Python,
is not modelled; no input in scope uses it.) -/
def parseIntPy (s : String) : Option Int :=
  let t := (strTrim s).toList
  let (sign, digits) :=
    match t with
    | '-' :: rest => ((-1 : Int), rest)
    | '+' :: rest => ((1 : Int), rest)
    | rest => ((1 : Int), rest)
  if digits = [] then none
  else if digits.all (fun c => c.isDigit) then
    some (sign * (Int.ofNat (digits.foldl (fun n c => 10 * n + (c.toNat - '0'.toNat)) 0)))
  else none

/-- Digit list to natural number. -/
def digitsToNat (ds : List Char) : Nat :=
  ds.foldl (fun n c => 10 * n + (c.toNat - '0'.toNat)) 0

/-- Python's `float(x)` on a string, modelled over ℚ: optional whitespace and
sign, then `digits[.digits] | .digits`, then an optional exponent.
(`inf`/`nan` literals are not modelled; no claim depends on them.) -/
def parseFloatPy (s : String) : Option ℚ :=
  let t := (strTrim s).toList
  let (isNeg, rest) :=
    match t with
    | '-' :: r => (true, r)
    | '+' :: r => (false, r)
    | r => (false, r)
  let ip := rest.takeWhile (fun c => c.isDigit)
  let rest1 := rest.dropWhile (fun c => c.isDigit)
  let (fp, rest2) :=
    match rest1 with
    | '.' :: r => (r.takeWhile (fun c => c.isDigit), r.dropWhile (fun c => c.isDigit))
    | r => ([], r)
  if ip = [] ∧ fp = [] then none
  else
    let mag : ℚ :=
      if fp = [] then (digitsToNat ip : ℚ)
      else (digitsToNat ip : ℚ) + (digitsToNat fp : ℚ) / ((10 : ℚ) ^ fp.length)
    let signed : ℚ := if isNeg then -mag else mag
    match rest2 with
    | [] => some signed
    | 'e' :: r | 'E' :: r =>
      let (eNeg, er) :=
        match r with
        | '-' :: rr => (true, rr)
        | '+' :: rr => (false, rr)
        | rr => (false, rr)
      if er ≠ [] ∧ er.all (fun c => c.isDigit) then
        let e : Nat := digitsToNat er
        if eNeg then some (signed / ((10 : ℚ) ^ e))
        else some (signed * ((10 : ℚ) ^ e))
      else none
    | _ => none

/-- JSON whitespace skipping. -/
def skipWs : List Char → List Char
  | c :: cs => if c = ' ' ∨ c = '\t' ∨ c = '\n' ∨ c = '\r' then skipWs cs else c :: cs
  | [] => []

/-- The `{` character (written via its code point). -/
def lbrace : Char := Char.ofNat 123

/-- The `}` character (written via its code point). -/
def rbrace : Char := Char.ofNat 125

/-- Body of a JSON string literal (opening quote already consumed): returns
the decoded characters and the remainder after the closing quote.  `\uXXXX`
escapes are not modelled; no input in scope uses them. -/
def parseStrChars : List Char → Option (List Char × List Char)
  | [] => none
  | '"' :: rest => some ([], rest)
  | '\\' :: e :: rest =>
      (match e with
        | '"' => some '"'
        | '\\' => some '\\'
        | '/' => some '/'
        | 'n' => some '\n'
        | 't' => some '\t'
        | 'r' => some '\r'
        | 'b' => some (Char.ofNat 8)
        | 'f' => some (Char.ofNat 12)
        | _ => none).bind fun c =>
      (parseStrChars rest).bind fun p => some (c :: p.1, p.2)
  | c :: rest =>
      if c = '\\' then none
      else (parseStrChars rest).bind fun p => some (c :: p.1, p.2)

/-- A JSON integer literal (optional minus then digits).  A following `.`,
`e` or `E` (a float literal) makes the parse fail: the embedding only models
integral JSON numbers. -/
def parseNumChars (cs : List Char) : Option (Json × List Char) :=
  let (sign, rest) :=
    match cs with
    | '-' :: r => ((-1 : Int), r)
    | r => ((1 : Int), r)
  let ds := rest.takeWhile (fun c => c.isDigit)
  let rest1 := rest.dropWhile (fun c => c.isDigit)
  if ds = [] then none
  else
    match rest1 with
    | '.' :: _ => none
    | 'e' :: _ => none
    | 'E' :: _ => none
    | r => some (Json.num (sign * (digitsToNat ds : Int)), r)

mutual

/-- Recursive-descent JSON value parser with explicit fuel. -/
def parseVal : Nat → List Char → Option (Json × List Char)
  | 0, _ => none
  | Nat.succ fuel, cs =>
    match skipWs cs with
    | 'n' :: 'u' :: 'l' :: 'l' :: r => some (Json.null, r)
    | 't' :: 'r' :: 'u' :: 'e' :: r => some (Json.bool true, r)
    | 'f' :: 'a' :: 'l' :: 's' :: 'e' :: r => some (Json.bool false, r)
    | '"' :: r => (parseStrChars r).bind fun p => some (Json.str (String.mk p.1), p.2)
    | '[' :: r =>
        (match skipWs r with
         | ']' :: rr => some (Json.arr [], rr)
         | _ => (parseElems fuel r).bind fun p => some (Json.arr p.1, p.2))
    | c :: r =>
        if c = lbrace then
          (match skipWs r with
           | c' :: rr =>
             if c' = rbrace then some (Json.obj [], rr)
             else (parseMembers fuel (c :: r).tail).bind fun p => some (Json.obj p.1, p.2)
           | [] => none)
        else parseNumChars (c :: r)
    | [] => none

/-- One or more comma-separated array elements, then `]`. -/
def parseElems : Nat → List Char → Option (List Json × List Char)
  | 0, _ => none
  | Nat.succ fuel, cs =>
    (parseVal fuel cs).bind fun p =>
    match skipWs p.2 with
    | ',' :: r => (parseElems fuel r).bind fun q => some (p.1 :: q.1, q.2)
    | ']' :: r => some ([p.1], r)
    | _ => none

/-- One or more `"key": value` members, then `}`. -/
def parseMembers : Nat → List Char → Option (List (String × Json) × List Char)
  | 0, _ => none
  | Nat.succ fuel, cs =>
    match skipWs cs with
    | '"' :: r =>
      (parseStrChars r).bind fun kp =>
      (match skipWs kp.2 with
       | ':' :: r2 =>
         (parseVal fuel r2).bind fun vp =>
         (match skipWs vp.2 with
          | ',' :: r3 => (parseMembers fuel r3).bind fun q =>
              some ((String.mk kp.1, vp.1) :: q.1, q.2)
          | c :: r3 =>
              if c = rbrace then some ([(String.mk kp.1, vp.1)], r3) else none
          | [] => none)
       | _ => none)
    | _ => none

end

/-- Python's `json.loads`: parse one JSON document, allowing only trailing
whitespace. -/
def parseJson (s : String) : Option Json :=
  match parseVal (2 * s.length + 4) s.toList with
  | some (v, rest) => if skipWs rest = [] then some v else none
  | none => none

/-! ### Data model

`UserProfile` and `CampChatState` from `src/backend/app/models/schemas.py`,
and the shape of a camp record as consumed by the filter engine and the
table formatter.  Camp records are semi-structured dicts in the source; the
embedding gives them fields for exactly the keys the code reads, with
`Option` for keys that may be absent and `Option` elements for list entries
that may fail the code's `isinstance(_, dict)` checks. -/

/-- `UserProfile` (pydantic model).  `child_age`/`child_grade` are plain
ints; `max_distance_miles` is a Python float, modelled as ℚ. -/
structure UserProfile where
  name : String
  child_name : String
  child_age : Int
  child_grade : Int
  interests : List String
  address : String
  max_distance_miles : ℚ
  special_needs : Option String := none
  preferred_categories : Option (List String) := none
  deriving DecidableEq

/-- The `{"name": ...}` dict under a camp category link. -/
structure CategoryName where
  name : Option String
  deriving DecidableEq

/-- One entry of `camp["camp_categories"]`: `{"categories": {...}}`. -/
structure CampCategoryLink where
  categories : Option CategoryName
  deriving DecidableEq

/-- The `{"city": ..., "state": ...}` dict under a session's location. -/
structure CampLoc where
  city : Option String
  state : Option String
  deriving DecidableEq

/-- One entry of `camp["camp_sessions"]`: `{"locations": {...}}`. -/
structure CampSessionRec where
  locations : Option CampLoc
  deriving DecidableEq

/-- The `{"name": ...}` dict under `camp["organizations"]`. -/
structure CampOrg where
  name : Option String
  deriving DecidableEq

/-- A camp record, with the keys read by `filter_cached_results_node`,
`generate_response_node` and `format_table_node`.  A `none` element of
`camp_categories`/`camp_sessions` models an entry that is `null` or not a
dict (the code's `isinstance` checks skip it). -/
structure Camp where
  camp_name : Option String
  description : Option String
  camp_categories : List (Option CampCategoryLink)
  camp_sessions : List (Option CampSessionRec)
  min_grade : Option Int
  max_grade : Option Int
  organizations : Option CampOrg
  price : Option Json
  distance_miles : Option Json
  deriving DecidableEq

/-- `CampChatState`.  `messages` keeps only the `HumanMessage` contents (the
code reads `messages[-1].content`).  `current_intent` holds the raw value
the classifier stores (`Optional[str]` in the pydantic model, but pydantic
v1 does not validate on assignment, so the classifier can store any JSON
value).  `search_filters` is a Python dict, modelled as an association
list.

`interests_prompted` models the transient dict key of the same name: the
collector reads it with `state.get('interests_prompted', False)` and writes
it on its *input* dict only; every value it returns is `chat_state.dict()`,
and `CampChatState` has no such field, so the key is absent — i.e. `false` —
in every returned state.  The embedding therefore sets `interests_prompted`
to `false` on every output of `collect_profile_node`. -/
structure ChatState where
  messages : List String
  session_id : String
  current_intent : Option Json
  search_filters : Option (List (String × Json))
  last_search_results : Option (List Camp)
  final_response : Option String
  needs_profile : Bool
  profile : Option UserProfile
  profile_step : Option String
  last_processed_message : Option String
  interests_prompted : Bool
  deriving DecidableEq

/-- The profile created by `collect_profile_node` on first contact:
`UserProfile(name="", child_name="", child_age=5, child_grade=0,
interests=[], address="", max_distance_miles=25.0)`. -/
def defaultProfile : UserProfile :=
  { name := ""
    child_name := ""
    child_age := 5
    child_grade := 0
    interests := []
    address := ""
    max_distance_miles := 25 }

/-- The fresh state dict built by `CampAgent.process_message` when a session
has no prior state. -/
def initialState (sid : String) : ChatState :=
  { messages := []
    session_id := sid
    current_intent := none
    search_filters := none
    last_search_results := none
    final_response := none
    needs_profile := true
    profile := none
    profile_step := none
    last_processed_message := none
    interests_prompted := false }

/-- `chat_state.messages[-1].content if chat_state.messages else ""`. -/
def lastMessage (s : ChatState) : String :=
  (s.messages.getLast?).getD ""

/-- Python's f-string rendering of the optional cursor
(`f"{chat_state.profile_step}"`): `None` renders as the string `"None"`. -/
def stepTokenStr : Option String → String
  | none => "None"
  | some x => x

/-- The duplicate-suppression token `f"{chat_state.profile_step}:{last_message}"`. -/
def mkToken (step : Option String) (m : String) : String :=
  stepTokenStr step ++ ":" ++ m

/-- The welcome message emitted when a profile is first created. -/
def welcomeMsg : String :=
  "Welcome! I\x27m your personal camp search assistant. I\x27ll help you find the perfect summer camp for your child.\n\nLet\x27s start by getting to know you and your child better. What\x27s your name?"

/-- The plain interests prompt (used when no categories are available, and
as the prompt issued on entering the interests step). -/
def interestsSimplePrompt (child : String) : String :=
  "What are " ++ child ++ "\x27s interests? (Enter interests separated by commas, e.g., soccer, basketball, art)"

/-- The numbered category list: `"\n".join(f"{i+1}. {cat}" ...)`. -/
def categoryMenu (cats : List String) : String :=
  joinSep "\n" (cats.enum.map (fun p => toString (p.1 + 1) ++ ". " ++ p.2))

/-- The full first-visit interests menu. -/
def interestsMenuPrompt (cats : List String) (child : String) : String :=
  "What are " ++ child ++ "\x27s interests? \n\nHere are some popular camp categories to choose from:\n"
    ++ categoryMenu cats
    ++ "\n\nYou can:\n• Select numbers from the list above (e.g., \x271, 3, 5\x27)\n• Type your own interests separated by commas (e.g., \x27soccer, art, science\x27)\n• Or combine both (e.g., \x271, 3, robotics, swimming\x27)\n\nWhat interests "
    ++ child ++ "?"

/-- Interests-answer parsing: comma-split, strip, drop empties; when the
external category list is non-empty, a pure-integer token `n` with
`1 <= n <= len(categories)` is replaced by the `n`-th category (1-indexed),
any other token is kept verbatim. -/
def parseInterests (cats : List String) (msg : String) : List String :=
  let toks := ((splitOnCharStr msg ',').map strTrim).filter (fun t => t ≠ "")
  if cats.isEmpty then toks
  else toks.map (fun t =>
    match parseIntPy t with
    | some n => if 1 ≤ n ∧ n ≤ (cats.length : Int) then cats.getD (n.toNat - 1) t else t
    | none => t)

/-- Rendering of the stored float distance into response text
(`f"{25.0}" = "25.0"`); non-integral values render as `num/den`, a cosmetic
divergence from Python's float repr that no claim touches. -/
def renderMiles (q : ℚ) : String :=
  if q.den = 1 then toString q.num ++ ".0"
  else toString q.num ++ "/" ++ toString q.den

/-- The profile summary emitted when collection completes. -/
def profileSummary (p : UserProfile) : String :=
  "Thank you for providing your information! I\x27ll use this to find the perfect camps for "
    ++ p.child_name ++ ".\n\nHere\x27s what I know:\n- Parent/Guardian: " ++ p.name
    ++ "\n- Child: " ++ p.child_name ++ " (Age: " ++ toString p.child_age
    ++ ", Grade: " ++ toString p.child_grade ++ ")\n- Interests: "
    ++ joinSep ", " p.interests ++ "\n- Location: " ++ p.address
    ++ "\n- Maximum Distance: " ++ renderMiles p.max_distance_miles
    ++ " miles\n\nNow I\x27ll search for camps that match " ++ p.child_name
    ++ "\x27s profile..."

/-- Profile initialisation on first contact: create the default profile,
set the cursor to `name`, emit the welcome prompt, and return without
consuming the message. -/
def collectInit (s : ChatState) : ChatState :=
  { s with
    profile := some defaultProfile
    profile_step := some "name"
    final_response := some welcomeMsg
    interests_prompted := false }

/-- The `name` arm: if the stored name is still empty, store the message
(whatever it is) and advance; otherwise re-prompt. -/
def collectName (s1 : ChatState) (p : UserProfile) (m : String) : ChatState :=
  if p.name = "" then
    { s1 with
      profile := some { p with name := m }
      profile_step := some "child_name"
      final_response := some ("Nice to meet you, " ++ m ++ "! What\x27s your child\x27s name?") }
  else
    { s1 with final_response := some "What\x27s your name?" }

/-- The `child_name` arm: store any message and advance. -/
def collectChildName (s1 : ChatState) (p : UserProfile) (m : String) : ChatState :=
  { s1 with
    profile := some { p with child_name := m }
    profile_step := some "child_age"
    final_response := some ("How old is " ++ m ++ "? (Please enter a number between 4 and 18)") }

/-- The `child_age` arm: an integer in [4,18] advances; otherwise a
corrective prompt and no transition. -/
def collectChildAge (s1 : ChatState) (p : UserProfile) (m : String) : ChatState :=
  match parseIntPy m with
  | some age =>
    if 4 ≤ age ∧ age ≤ 18 then
      { s1 with
        profile := some { p with child_age := age }
        profile_step := some "child_grade"
        final_response := some ("What grade is " ++ p.child_name ++ " in? (Please enter a number between 0 and 12)") }
    else { s1 with final_response := some "Please enter a valid age between 4 and 18." }
  | none => { s1 with final_response := some "Please enter a valid number for the age." }

/-- The `child_grade` arm: an integer in [0,12] advances; otherwise a
corrective prompt and no transition. -/
def collectChildGrade (s1 : ChatState) (p : UserProfile) (m : String) : ChatState :=
  match parseIntPy m with
  | some grade =>
    if 0 ≤ grade ∧ grade ≤ 12 then
      { s1 with
        profile := some { p with child_grade := grade }
        profile_step := some "interests"
        final_response := some (interestsSimplePrompt p.child_name) }
    else { s1 with final_response := some "Please enter a valid grade between 0 and 12." }
  | none => { s1 with final_response := some "Please enter a valid number for the grade." }

/-- The two-phase `interests` arm.  `prompted` is the value of
`state.get('interests_prompted', False)` read from the input dict; the
menu branch's write `state['interests_prompted'] = True` is invisible in
the returned state (see `ChatState`). -/
def collectInterests (cats : List String) (s1 : ChatState) (p : UserProfile)
    (prompted : Bool) (m : String) : ChatState :=
  if prompted = false then
    { s1 with
      final_response := some (if cats.isEmpty then interestsSimplePrompt p.child_name
                              else interestsMenuPrompt cats p.child_name) }
  else if m ≠ "" ∧ strTrim m ≠ "" then
    { s1 with
      profile := some { p with interests := parseInterests cats m }
      profile_step := some "address"
      final_response := some "Where are you located? Please enter your home address." }
  else
    { s1 with final_response := none }

/-- The `address` arm: store any message and advance. -/
def collectAddress (s1 : ChatState) (p : UserProfile) (m : String) : ChatState :=
  { s1 with
    profile := some { p with address := m }
    profile_step := some "distance"
    final_response := some "What\x27s the maximum driving distance you\x27re willing to travel for camps? (Enter a number in miles)" }

/-- The `distance` arm: a float > 0 completes the profile (cursor to the
terminal marker, summary emitted); otherwise a corrective prompt. -/
def collectDistance (s1 : ChatState) (p : UserProfile) (m : String) : ChatState :=
  match parseFloatPy m with
  | some d =>
    if 0 < d then
      { s1 with
        profile := some { p with max_distance_miles := d }
        profile_step := none
        final_response := some (profileSummary { p with max_distance_miles := d }) }
    else { s1 with final_response := some "Please enter a valid distance greater than 0." }
  | none => { s1 with final_response := some "Please enter a valid number for the distance." }

/-- `collect_profile_node` (Agent 1), parameterised by the external category
list `cats` (`supabase_client.get_unique_categories()`).  The function is
the dict-in/dict-out body of the Python node: it reads the last message
from the history, dispatches on the cursor through the arms above, and
returns `chat_state.dict()`.  Every output carries
`interests_prompted := false`, because the Python write
`state['interests_prompted'] = True` lands on the input dict while the
returned `CampChatState` has no such field (see `ChatState`). -/
def collect_profile_node (cats : List String) (s : ChatState) : ChatState :=
  let last_message := lastMessage s
  match s.profile with
  | none => collectInit s
  | some p =>
    let message_hash := mkToken s.profile_step last_message
    if s.last_processed_message = some message_hash then
      { s with interests_prompted := false }
    else
      let s1 := { s with
        last_processed_message := some message_hash
        interests_prompted := false }
      if s.profile_step = some "name" then collectName s1 p last_message
      else if s.profile_step = some "child_name" then collectChildName s1 p last_message
      else if s.profile_step = some "child_age" then collectChildAge s1 p last_message
      else if s.profile_step = some "child_grade" then collectChildGrade s1 p last_message
      else if s.profile_step = some "interests" then
        collectInterests cats s1 p s.interests_prompted last_message
      else if s.profile_step = some "address" then collectAddress s1 p last_message
      else if s.profile_step = some "distance" then collectDistance s1 p last_message
      else s1

/-- One turn of the profile collector: `process_message` appends the inbound
message to the history and runs the node. -/
def advance (cats : List String) (s : ChatState) (m : String) : ChatState :=
  collect_profile_node cats { s with messages := s.messages ++ [m] }

/-- `CampAgent._is_profile_complete`: all fields truthy/in-range AND the
cursor at its terminal marker (`profile_step is None`).  The pydantic
`child_age`/`child_grade` fields are non-optional, so the code's
`is not None` guards on them are vacuous. -/
def is_profile_complete (s : ChatState) : Bool :=
  match s.profile with
  | none => false
  | some p =>
      decide (p.name ≠ "") && decide (p.child_name ≠ "") &&
      (decide (4 ≤ p.child_age) && decide (p.child_age ≤ 18)) &&
      (decide (0 ≤ p.child_grade) && decide (p.child_grade ≤ 12)) &&
      !p.interests.isEmpty && decide (p.address ≠ "") &&
      decide (0 < p.max_distance_miles) && decide (s.profile_step = none)

/-! ### Intent classifier (`classify_intent_node`, router variant)

The LLM call is external; the node is parameterised by the raw response
text.  Python `try/except` around duck-typed dict access is modelled with
`Except Unit`: an `error` result corresponds to an exception reaching the
node's outer handler, which rebuilds the state from the original dict (so
all partial writes are discarded), sets `current_intent = "general"` and
returns. -/

deriving instance DecidableEq for Except

/-- `bool(chat_state.last_search_results)`. -/
def hasCachedResults (s : ChatState) : Bool :=
  match s.last_search_results with
  | none => false
  | some l => ¬ l.isEmpty

/-- Code-fence stripping before JSON parsing: strip, then drop a leading
"```json", then a leading "```", then a trailing "```", then strip again. -/
def cleanContent (raw : String) : String :=
  let c0 := strTrim raw
  let c1 := if strStartsWith c0 "```json" then strDrop c0 7 else c0
  let c2 := if strStartsWith c1 "```" then strDrop c1 3 else c1
  let c3 := if strEndsWith c2 "```" then strDropRight c2 3 else c2
  strTrim c3

/-- `intent_data`: the parsed cleaned response, or the default
`{"intent": "general", "search_criteria": {}}` when parsing fails. -/
def intentData (raw : String) : Json :=
  match parseJson (cleanContent raw) with
  | some j => j
  | none => Json.obj [("intent", Json.str "general"), ("search_criteria", Json.obj [])]

/-- `intent_data.get("intent", "general")`.  A non-dict `intent_data` makes
`.get` raise (handled by the node's outer handler). -/
def extractedIntentOf (raw : String) : Except Unit Json :=
  match intentData raw with
  | Json.obj kvs => Except.ok ((jget kvs "intent").getD (Json.str "general"))
  | _ => Except.error ()

/-- `intent_data.get("search_criteria", {})` as a dict.  A non-dict value
raises at the first `criteria.get` (outer handler); a non-dict
`intent_data` already raised before this point. -/
def criteriaObjOf (raw : String) : Except Unit (List (String × Json)) :=
  match intentData raw with
  | Json.obj kvs =>
    match jget kvs "search_criteria" with
    | none => Except.ok []
    | some (Json.obj c) => Except.ok c
    | some _ => Except.error ()
  | _ => Except.error ()

/-- Python `int(criteria.get("age"))` under the classifier's inner
`try/except: pass`: an int passes through, a numeric string parses, a bool
is 1/0, everything else (including a missing key) raises and is swallowed. -/
def ageIntPy : Option Json → Option Int
  | some (Json.num n) => some n
  | some (Json.str s) => parseIntPy s
  | some (Json.bool b) => some (if b then 1 else 0)
  | _ => none

/-- Criteria-to-filters mapping (lines 115-142 of the router node):
`activity` is stored verbatim under `category` when truthy; a truthy
`location` is split at its first comma into `city`/`state` or stored
stripped under `location` (a truthy non-string `location` raises at
`"," in location`); a truthy `age` (`if criteria.get("age"):`) that parses
yields `min_grade = max(0, age-5)` and `max_grade = min_grade + 2`, a falsy
or unparseable one writes nothing. -/
def buildFilters (criteria : List (String × Json)) : Except Unit (List (String × Json)) :=
  let fs : List (String × Json) :=
    match jget criteria "activity" with
    | some v => if v.truthy then [("category", v)] else []
    | none => []
  let locJ := (jget criteria "location").getD (Json.str "")
  let locStep : Except Unit (List (String × Json)) :=
    if locJ.truthy then
      match locJ with
      | Json.str loc =>
        if loc.toList.contains ',' then
          let parts := splitOnCharStr loc ','
          let cityFs := [("city", Json.str (strTrim (parts.headD "")))]
          let stFs :=
            if 1 < parts.length then [("state", Json.str (strTrim (parts.getD 1 "")))]
            else []
          Except.ok (fs ++ cityFs ++ stFs)
        else Except.ok (fs ++ [("location", Json.str (strTrim loc))])
      | _ => Except.error ()
    else Except.ok fs
  match locStep with
  | Except.error e => Except.error e
  | Except.ok fs2 =>
    Except.ok
      (match jget criteria "age" with
       | some av =>
         if av.truthy then
           match ageIntPy (some av) with
           | some age =>
             let grade := max 0 (age - 5)
             fs2 ++ [("min_grade", Json.num grade), ("max_grade", Json.num (grade + 2))]
           | none => fs2
         else fs2
       | none => fs2)

/-- The criteria-derived filter set of a raw LLM response. -/
def criteriaFiltersOf (raw : String) : Except Unit (List (String × Json)) :=
  match criteriaObjOf raw with
  | Except.error e => Except.error e
  | Except.ok c => buildFilters c

/-- The body of `classify_intent_node` up to its outer exception handler. -/
def classifyCore (llmResponse : String) (s : ChatState) : Except Unit ChatState :=
  match extractedIntentOf llmResponse with
  | Except.error e => Except.error e
  | Except.ok ex0 =>
    let ex := if ex0.isStr "filter" && !hasCachedResults s then Json.str "search" else ex0
    let s1 := { s with current_intent := some ex }
    if ex.isStr "search" || ex.isStr "filter" then
      match criteriaFiltersOf llmResponse with
      | Except.error e => Except.error e
      | Except.ok fs => Except.ok { s1 with search_filters := some fs }
    else Except.ok s1

/-- `classify_intent_node`, parameterised by the raw LLM response. -/
def classify_intent_node (llmResponse : String) (s : ChatState) : ChatState :=
  match classifyCore llmResponse s with
  | Except.ok s2 => s2
  | Except.error _ => { s with current_intent := some (Json.str "general") }

/-! ### Result cache & filter engine (`filter_cached_results_node`) -/

/-- Truthiness of an optional dict value. -/
def truthyOpt : Option Json → Bool
  | none => false
  | some j => j.truthy

/-- `.lower()` on a filter value: raises on a non-string. -/
def jlowerOf : Json → Except Unit String
  | Json.str s => Except.ok (strLower s)
  | _ => Except.error ()

/-- `(search_filters.get(k) or "")` used in string concatenation: a missing
or falsy value contributes `""`; a truthy non-string raises. -/
def jorEmptyStr : Option Json → Except Unit String
  | none => Except.ok ""
  | some j =>
    if j.truthy then
      match j with
      | Json.str s => Except.ok s
      | _ => Except.error ()
    else Except.ok ""

/-- A grade filter value in an integer comparison (`camp_max < filter_min`):
ints compare, bools compare as 0/1, anything else raises. -/
def jgradeVal : Json → Except Unit Int
  | Json.num n => Except.ok n
  | Json.bool b => Except.ok (if b then 1 else 0)
  | _ => Except.error ()

/-- `x is not None` on an optional dict value (JSON `null` is Python `None`). -/
def isNotNoneJ : Option Json → Bool
  | none => false
  | some Json.null => false
  | some _ => true

/-- Category axis: applied when `search_filters.get("category")` is truthy.
Case-insensitive substring match against camp name or description, falling
back to the category association names. -/
def categoryAxis (sf : List (String × Json)) (c : Camp) : Except Unit Bool :=
  match jget sf "category" with
  | none => Except.ok true
  | some v =>
    if v.truthy then
      match jlowerOf v with
      | Except.error e => Except.error e
      | Except.ok catf =>
        let nameL := strLower (c.camp_name.getD "")
        let descL := strLower (c.description.getD "")
        if containsSub nameL catf || containsSub descL catf then Except.ok true
        else
          Except.ok (c.camp_categories.any (fun link =>
            match link with
            | none => false
            | some l =>
              let cats := l.categories.getD { name := none }
              containsSub (strLower (cats.name.getD "")) catf))
    else Except.ok true

/-- Location axis: applied when any of `city`, `state`, `location` is
truthy; the combined lowercase filter string must be a substring of some
session's combined `city state` string.  A camp with no (valid) session
never matches. -/
def locationAxis (sf : List (String × Json)) (c : Camp) : Except Unit Bool :=
  if truthyOpt (jget sf "city") || truthyOpt (jget sf "state")
      || truthyOpt (jget sf "location") then
    match jorEmptyStr (jget sf "city") with
    | Except.error e => Except.error e
    | Except.ok cityS =>
      match jorEmptyStr (jget sf "state") with
      | Except.error e => Except.error e
      | Except.ok stS =>
        match jorEmptyStr (jget sf "location") with
        | Except.error e => Except.error e
        | Except.ok locS =>
          let lf := strLower (strTrim (cityS ++ " " ++ stS ++ " " ++ locS))
          Except.ok (c.camp_sessions.any (fun sess =>
            match sess with
            | none => false
            | some se =>
              let loc := se.locations.getD { city := none, state := none }
              let sl := strLower (strTrim ((loc.city.getD "") ++ " " ++ (loc.state.getD "")))
              containsSub sl lf))
  else Except.ok true

/-- Grade axis: only applied when the filter sets `min_grade` or
`max_grade` (non-`None`) and both camp grades are present; the camp is
excluded iff `camp_max < filter_min` or `camp_min > filter_max`. -/
def gradeAxis (sf : List (String × Json)) (c : Camp) : Except Unit Bool :=
  let fminJ := jget sf "min_grade"
  let fmaxJ := jget sf "max_grade"
  if isNotNoneJ fminJ || isNotNoneJ fmaxJ then
    match c.min_grade, c.max_grade with
    | some cmin, some cmax =>
      let m1 : Except Unit Bool :=
        match fminJ with
        | none => Except.ok true
        | some Json.null => Except.ok true
        | some v =>
          match jgradeVal v with
          | Except.error e => Except.error e
          | Except.ok f => Except.ok (decide (¬ (cmax < f)))
      match m1 with
      | Except.error e => Except.error e
      | Except.ok keep1 =>
        let m2 : Except Unit Bool :=
          match fmaxJ with
          | none => Except.ok true
          | some Json.null => Except.ok true
          | some v =>
            match jgradeVal v with
            | Except.error e => Except.error e
            | Except.ok f => Except.ok (decide (¬ (cmin > f)))
        match m2 with
        | Except.error e => Except.error e
        | Except.ok keep2 => Except.ok (keep1 && keep2)
    | _, _ => Except.ok true
  else Except.ok true

/-- Whether one cached camp passes every active filter axis (the three axes
are AND-combined). -/
def campMatchesE (sf : List (String × Json)) (c : Camp) : Except Unit Bool :=
  match categoryAxis sf c with
  | Except.error e => Except.error e
  | Except.ok m1 =>
    match locationAxis sf c with
    | Except.error e => Except.error e
    | Except.ok m2 =>
      match gradeAxis sf c with
      | Except.error e => Except.error e
      | Except.ok m3 => Except.ok (m1 && m2 && m3)

/-- The filter loop over the cached camps; an exception on any camp aborts
the whole pass (the node's handler then empties the cache). -/
def filterCampsE (sf : List (String × Json)) : List Camp → Except Unit (List Camp)
  | [] => Except.ok []
  | c :: rest =>
    match campMatchesE sf c with
    | Except.error e => Except.error e
    | Except.ok m =>
      match filterCampsE sf rest with
      | Except.error e => Except.error e
      | Except.ok r => Except.ok (if m then c :: r else r)

/-- `not chat_state.search_filters`: unset or empty dict. -/
def filtersFalsy : Option (List (String × Json)) → Bool
  | none => true
  | some [] => true
  | some (_ :: _) => false

/-- `filter_cached_results_node`: with no filters set, the state (hence the
cached set) is returned unchanged; otherwise the cache is replaced by the
matching subset, or emptied if filtering raised. -/
def filter_cached_results_node (s : ChatState) : ChatState :=
  let cached := s.last_search_results.getD []
  if filtersFalsy s.search_filters then s
  else
    match s.search_filters with
    | none => s
    | some sf =>
      match filterCampsE sf cached with
      | Except.ok kept => { s with last_search_results := some kept }
      | Except.error _ => { s with last_search_results := some [] }

/-! ### Profile-driven pipeline (app variant) -/

/-- `not chat_state.last_search_results`. -/
def resultsFalsy : Option (List Camp) → Bool
  | none => true
  | some [] => true
  | some (_ :: _) => false

/-- `CampSearchFilters(min_grade=child_grade, max_grade=child_grade,
address=..., max_driving_distance_miles=..., category=None).dict()` — the
pydantic `.dict()` emits every declared field, in declaration order, with
`None` for the unset ones. -/
def profileFilters (p : UserProfile) : List (String × Json) :=
  [("category", Json.null),
   ("min_grade", Json.num p.child_grade),
   ("max_grade", Json.num p.child_grade),
   ("min_price", Json.null),
   ("max_price", Json.null),
   ("start_date", Json.null),
   ("end_date", Json.null),
   ("address", Json.str p.address),
   ("max_driving_distance_miles", Json.qnum p.max_distance_miles)]

/-- `generate_sql_query_node` (Agent 2, filter derivation). -/
def generate_sql_query_node (s : ChatState) : ChatState :=
  match s.profile with
  | none =>
      { s with final_response := some "No profile found. Please provide your profile information first." }
  | some p =>
      { s with
        search_filters := some (profileFilters p)
        final_response := some ("Perfect! I\x27m preparing a search for camps that match "
          ++ p.child_name ++ "\x27s profile. Searching for camps within "
          ++ renderMiles p.max_distance_miles ++ " miles of " ++ p.address ++ "...") }

/-- `search_database_node` (Agent 2, database execution), parameterised by
the external search result `db`.  With no profile, building the response
message raises (`chat_state.profile.child_name`) and the handler discards
the partial writes, empties the cache and apologises. -/
def search_database_node (db : List Camp) (s : ChatState) : ChatState :=
  if filtersFalsy s.search_filters then
    { s with final_response := some "No search filters found. Please provide your profile information first." }
  else
    match s.profile with
    | some p =>
        { s with
          last_search_results := some db
          final_response := some
            (if db.isEmpty then
              "I searched for camps matching " ++ p.child_name
                ++ "\x27s profile, but I couldn\x27t find any camps in the database. Would you like to try different search criteria?"
            else
              "Great! I found " ++ toString db.length ++ " camps that match "
                ++ p.child_name ++ "\x27s profile. Let me format the results for you...") }
    | none =>
        { s with
          last_search_results := some []
          final_response := some "I\x27m having trouble searching the database. Please try again." }

/-- Python `.strip(', ')` on the location cell. -/
def stripCommaSpace (s : String) : String :=
  String.mk (((s.toList.dropWhile (fun c => c = ',' ∨ c = ' ')).reverse.dropWhile
    (fun c => c = ',' ∨ c = ' ')).reverse)

/-- F-string rendering of a dict value in the results table.  Containers
render as placeholders; no record in any claim carries one. -/
def renderJson : Json → String
  | Json.null => "None"
  | Json.bool b => if b then "True" else "False"
  | Json.num n => toString n
  | Json.qnum q => renderMiles q
  | Json.str s => s
  | Json.arr _ => "[...]"
  | Json.obj _ => "(dict)"

/-- One markdown row of the results table.  A first session entry that is
not a dict raises at `session.get` (`format_table_node` has no
`isinstance` guard), which aborts the whole formatting pass. -/
def formatRowE (c : Camp) : Except Unit String :=
  let camp_name := c.camp_name.getD "Unknown"
  let org_name :=
    match c.organizations with
    | some o => o.name.getD "Unknown"
    | none => "Unknown"
  let locE : Except Unit String :=
    match c.camp_sessions with
    | [] => Except.ok "Unknown"
    | sess0 :: _ =>
      match sess0 with
      | none => Except.error ()
      | some se =>
        match se.locations with
        | none => Except.ok "Unknown"
        | some loc =>
          Except.ok (stripCommaSpace ((loc.city.getD "") ++ ", " ++ (loc.state.getD "")))
  match locE with
  | Except.error e => Except.error e
  | Except.ok location =>
    let grades :=
      match c.min_grade, c.max_grade with
      | some a, some b =>
        if a = 0 ∨ b = 0 then "Unknown" else toString a ++ "-" ++ toString b
      | _, _ => "Unknown"
    let price :=
      match c.price with
      | none => "Unknown"
      | some v =>
        if v.truthy && !(Json.beq v (Json.str "Unknown")) then "$" ++ renderJson v ++ "/week"
        else renderJson v
    let distance :=
      match c.distance_miles with
      | none => "Unknown"
      | some v =>
        if v.truthy && !(Json.beq v (Json.str "Unknown")) then renderJson v ++ " miles"
        else renderJson v
    let d0 := c.description.getD ""
    let descr := if d0 = "" then d0 else (if 50 < strLen d0 then strTake d0 50 ++ "..." else d0)
    Except.ok ("| " ++ camp_name ++ " | " ++ org_name ++ " | " ++ location ++ " | "
      ++ grades ++ " | " ++ price ++ " | " ++ distance ++ " | " ++ descr ++ " |\n")

/-- The concatenated table rows. -/
def formatRowsE : List Camp → Except Unit String
  | [] => Except.ok ""
  | c :: rest =>
    match formatRowE c with
    | Except.error e => Except.error e
    | Except.ok r =>
      match formatRowsE rest with
      | Except.error e => Except.error e
      | Except.ok rs => Except.ok (r ++ rs)

/-- The table header rows. -/
def tableHeader : String :=
  "| Camp Name | Organization | Location | Grades | Price | Distance | Description |\n|-----------|--------------|----------|--------|-------|----------|-------------|\n"

/-- The body of `format_table_node` up to its exception handler (a missing
profile raises at `chat_state.profile.child_name`). -/
def formatTableCore (s : ChatState) : Except Unit ChatState :=
  if (s.last_search_results.getD []).isEmpty then
    match s.profile with
    | none => Except.error ()
    | some p =>
      Except.ok { s with final_response := some ("I couldn\x27t find any camps matching "
        ++ p.child_name ++ "\x27s profile. Would you like to try different search criteria?") }
  else
    match formatRowsE ((s.last_search_results.getD []).take 10) with
    | Except.error e => Except.error e
    | Except.ok rows =>
      match s.profile with
      | none => Except.error ()
      | some p =>
        Except.ok { s with final_response := some ("I found "
          ++ toString (s.last_search_results.getD []).length
          ++ " camps that match " ++ p.child_name
          ++ "\x27s profile!\n\nHere are the top results:\n\n" ++ tableHeader ++ rows
          ++ "\n\nWould you like me to:\n1. Show more details about any specific camp?\n2. Filter the results further?\n3. Search with different criteria?") }

/-- `format_table_node` (Agent 3). -/
def format_table_node (s : ChatState) : ChatState :=
  match formatTableCore s with
  | Except.ok s2 => s2
  | Except.error _ =>
      { s with final_response := some "I\x27m having trouble formatting the results. Please try again." }

/-- `not chat_state.final_response or "I found" not in chat_state.final_response`. -/
def responseNotRendered : Option String → Bool
  | none => true
  | some r => decide (r = "") || ! containsSub r "I found"

/-- `CampAgent._process_request_node`: the single-node orchestrator that
re-evaluates the next incomplete stage each turn and runs exactly that
stage, with a terminal short-circuit.  The external category list and
database result are parameters. -/
def process_request_node (cats : List String) (db : List Camp) (s : ChatState) : ChatState :=
  if ¬ is_profile_complete s then collect_profile_node cats s
  else if filtersFalsy s.search_filters then generate_sql_query_node s
  else if resultsFalsy s.last_search_results then search_database_node db s
  else if responseNotRendered s.final_response then format_table_node s
  else s

/-! ### Lemmas about the profile collector -/

/-- Fields of the conversation state that `collect_profile_node` never
writes. -/
def SameCollectFrame (a b : ChatState) : Prop :=
  a.search_filters = b.search_filters ∧
  a.last_search_results = b.last_search_results ∧
  a.current_intent = b.current_intent ∧
  a.session_id = b.session_id ∧
  a.needs_profile = b.needs_profile ∧
  a.messages = b.messages

theorem SameCollectFrame.refl (a : ChatState) : SameCollectFrame a a :=
  ⟨rfl, rfl, rfl, rfl, rfl, rfl⟩

theorem SameCollectFrame.trans {a b c : ChatState}
    (h1 : SameCollectFrame a b) (h2 : SameCollectFrame b c) : SameCollectFrame a c := by
  obtain ⟨x1, x2, x3, x4, x5, x6⟩ := h1
  obtain ⟨y1, y2, y3, y4, y5, y6⟩ := h2
  exact ⟨x1.trans y1, x2.trans y2, x3.trans y3, x4.trans y4, x5.trans y5, x6.trans y6⟩

theorem collectInit_frame (s : ChatState) : SameCollectFrame (collectInit s) s :=
  ⟨rfl, rfl, rfl, rfl, rfl, rfl⟩

theorem collectName_frame (s1 : ChatState) (p : UserProfile) (m : String) :
    SameCollectFrame (collectName s1 p m) s1 := by
  unfold collectName; split <;> exact ⟨rfl, rfl, rfl, rfl, rfl, rfl⟩

theorem collectChildName_frame (s1 : ChatState) (p : UserProfile) (m : String) :
    SameCollectFrame (collectChildName s1 p m) s1 :=
  ⟨rfl, rfl, rfl, rfl, rfl, rfl⟩

theorem collectChildAge_frame (s1 : ChatState) (p : UserProfile) (m : String) :
    SameCollectFrame (collectChildAge s1 p m) s1 := by
  unfold collectChildAge
  repeat' split
  all_goals exact ⟨rfl, rfl, rfl, rfl, rfl, rfl⟩

theorem collectChildGrade_frame (s1 : ChatState) (p : UserProfile) (m : String) :
    SameCollectFrame (collectChildGrade s1 p m) s1 := by
  unfold collectChildGrade
  repeat' split
  all_goals exact ⟨rfl, rfl, rfl, rfl, rfl, rfl⟩

theorem collectInterests_frame (cats : List String) (s1 : ChatState) (p : UserProfile)
    (prompted : Bool) (m : String) :
    SameCollectFrame (collectInterests cats s1 p prompted m) s1 := by
  unfold collectInterests
  repeat' split
  all_goals exact ⟨rfl, rfl, rfl, rfl, rfl, rfl⟩

theorem collectAddress_frame (s1 : ChatState) (p : UserProfile) (m : String) :
    SameCollectFrame (collectAddress s1 p m) s1 :=
  ⟨rfl, rfl, rfl, rfl, rfl, rfl⟩

theorem collectDistance_frame (s1 : ChatState) (p : UserProfile) (m : String) :
    SameCollectFrame (collectDistance s1 p m) s1 := by
  unfold collectDistance
  repeat' split
  all_goals exact ⟨rfl, rfl, rfl, rfl, rfl, rfl⟩

/-- `collect_profile_node` writes only profile, cursor, response, the dedup
token and the (dropped) prompted flag. -/
theorem collect_frame (cats : List String) (s : ChatState) :
    SameCollectFrame (collect_profile_node cats s) s := by
  unfold collect_profile_node
  split
  · exact collectInit_frame s
  · dsimp only
    split
    · exact ⟨rfl, rfl, rfl, rfl, rfl, rfl⟩
    · split
      · exact (collectName_frame _ _ _).trans ⟨rfl, rfl, rfl, rfl, rfl, rfl⟩
      · split
        · exact (collectChildName_frame _ _ _).trans ⟨rfl, rfl, rfl, rfl, rfl, rfl⟩
        · split
          · exact (collectChildAge_frame _ _ _).trans ⟨rfl, rfl, rfl, rfl, rfl, rfl⟩
          · split
            · exact (collectChildGrade_frame _ _ _).trans ⟨rfl, rfl, rfl, rfl, rfl, rfl⟩
            · split
              · exact (collectInterests_frame _ _ _ _ _).trans ⟨rfl, rfl, rfl, rfl, rfl, rfl⟩
              · split
                · exact (collectAddress_frame _ _ _).trans ⟨rfl, rfl, rfl, rfl, rfl, rfl⟩
                · split
                  · exact (collectDistance_frame _ _ _).trans ⟨rfl, rfl, rfl, rfl, rfl, rfl⟩
                  · exact ⟨rfl, rfl, rfl, rfl, rfl, rfl⟩

/-- Every state the collector returns carries a false prompted flag (the
Python write to `state['interests_prompted']` is dropped by
`chat_state.dict()`). -/
theorem collect_flag (cats : List String) (s : ChatState) :
    (collect_profile_node cats s).interests_prompted = false := by
  unfold collect_profile_node
  split
  · rfl
  · dsimp only
    split
    · rfl
    · unfold collectName collectChildName collectChildAge collectChildGrade
        collectInterests collectAddress collectDistance
      split <;> (repeat' split) <;> rfl

theorem collectName_props (s1 : ChatState) (p : UserProfile) (m : String) :
    (collectName s1 p m).last_processed_message = s1.last_processed_message ∧
    (s1.profile.isSome = true → (collectName s1 p m).profile.isSome = true) ∧
    ((collectName s1 p m).profile_step = some "child_name" ∨
      (collectName s1 p m).profile_step = s1.profile_step) := by
  unfold collectName; split
  · exact ⟨rfl, fun _ => rfl, Or.inl rfl⟩
  · exact ⟨rfl, fun h => h, Or.inr rfl⟩

theorem collectChildName_props (s1 : ChatState) (p : UserProfile) (m : String) :
    (collectChildName s1 p m).last_processed_message = s1.last_processed_message ∧
    (s1.profile.isSome = true → (collectChildName s1 p m).profile.isSome = true) ∧
    (collectChildName s1 p m).profile_step = some "child_age" :=
  ⟨rfl, fun _ => rfl, rfl⟩

theorem collectChildAge_props (s1 : ChatState) (p : UserProfile) (m : String) :
    (collectChildAge s1 p m).last_processed_message = s1.last_processed_message ∧
    (s1.profile.isSome = true → (collectChildAge s1 p m).profile.isSome = true) ∧
    ((collectChildAge s1 p m).profile_step = some "child_grade" ∨
      (collectChildAge s1 p m).profile_step = s1.profile_step) := by
  unfold collectChildAge
  repeat' split
  all_goals first
    | exact ⟨rfl, fun _ => rfl, Or.inl rfl⟩
    | exact ⟨rfl, fun h => h, Or.inr rfl⟩

theorem collectChildGrade_props (s1 : ChatState) (p : UserProfile) (m : String) :
    (collectChildGrade s1 p m).last_processed_message = s1.last_processed_message ∧
    (s1.profile.isSome = true → (collectChildGrade s1 p m).profile.isSome = true) ∧
    ((collectChildGrade s1 p m).profile_step = some "interests" ∨
      (collectChildGrade s1 p m).profile_step = s1.profile_step) := by
  unfold collectChildGrade
  repeat' split
  all_goals first
    | exact ⟨rfl, fun _ => rfl, Or.inl rfl⟩
    | exact ⟨rfl, fun h => h, Or.inr rfl⟩

theorem collectInterests_props (cats : List String) (s1 : ChatState) (p : UserProfile)
    (prompted : Bool) (m : String) :
    (collectInterests cats s1 p prompted m).last_processed_message = s1.last_processed_message ∧
    (s1.profile.isSome = true → (collectInterests cats s1 p prompted m).profile.isSome = true) ∧
    ((collectInterests cats s1 p prompted m).profile_step = some "address" ∨
      (collectInterests cats s1 p prompted m).profile_step = s1.profile_step) := by
  unfold collectInterests
  repeat' split
  all_goals first
    | exact ⟨rfl, fun _ => rfl, Or.inl rfl⟩
    | exact ⟨rfl, fun h => h, Or.inr rfl⟩

/-- On first entry to the interests step (prompted flag still false) the
cursor does not move. -/
theorem collectInterests_step_menu (cats : List String) (s1 : ChatState) (p : UserProfile)
    (m : String) :
    (collectInterests cats s1 p false m).profile_step = s1.profile_step := rfl

theorem collectAddress_props (s1 : ChatState) (p : UserProfile) (m : String) :
    (collectAddress s1 p m).last_processed_message = s1.last_processed_message ∧
    (s1.profile.isSome = true → (collectAddress s1 p m).profile.isSome = true) ∧
    (collectAddress s1 p m).profile_step = some "distance" :=
  ⟨rfl, fun _ => rfl, rfl⟩

theorem collectDistance_props (s1 : ChatState) (p : UserProfile) (m : String) :
    (collectDistance s1 p m).last_processed_message = s1.last_processed_message ∧
    (s1.profile.isSome = true → (collectDistance s1 p m).profile.isSome = true) ∧
    ((collectDistance s1 p m).profile_step = none ∨
      (collectDistance s1 p m).profile_step = s1.profile_step) := by
  unfold collectDistance
  repeat' split
  all_goals first
    | exact ⟨rfl, fun _ => rfl, Or.inl rfl⟩
    | exact ⟨rfl, fun h => h, Or.inr rfl⟩

/-- When a profile exists, the node records the dedup token of the current
(cursor, message) pair — either freshly, or it was already there and the
node early-returned. -/
theorem collect_token (cats : List String) (s : ChatState) (hp : s.profile.isSome = true) :
    (collect_profile_node cats s).last_processed_message
      = some (mkToken s.profile_step (lastMessage s)) := by
  unfold collect_profile_node
  cases hq : s.profile with
  | none => rw [hq] at hp; simp at hp
  | some p =>
    simp only [hq]
    split
    · next hc => exact hc
    · split
      · exact (collectName_props _ _ _).1
      · split
        · exact (collectChildName_props _ _ _).1
        · split
          · exact (collectChildAge_props _ _ _).1
          · split
            · exact (collectChildGrade_props _ _ _).1
            · split
              · exact (collectInterests_props _ _ _ _ _).1
              · split
                · exact (collectAddress_props _ _ _).1
                · split
                  · exact (collectDistance_props _ _ _).1
                  · rfl

/-- The node never discards an existing profile. -/
theorem collect_profile_isSome (cats : List String) (s : ChatState)
    (hp : s.profile.isSome = true) :
    (collect_profile_node cats s).profile.isSome = true := by
  unfold collect_profile_node
  cases hq : s.profile with
  | none => rw [hq] at hp; simp at hp
  | some p =>
    simp only [hq]
    split
    · exact rfl
    · split
      · exact (collectName_props _ _ _).2.1 rfl
      · split
        · exact (collectChildName_props _ _ _).2.1 rfl
        · split
          · exact (collectChildAge_props _ _ _).2.1 rfl
          · split
            · exact (collectChildGrade_props _ _ _).2.1 rfl
            · split
              · exact (collectInterests_props _ _ _ _ _).2.1 rfl
              · split
                · exact (collectAddress_props _ _ _).2.1 rfl
                · split
                  · exact (collectDistance_props _ _ _).2.1 rfl
                  · exact rfl

/-- The appended inbound message is what the node reads back as the last
message. -/
theorem lastMessage_append (s : ChatState) (m : String) :
    lastMessage { s with messages := s.messages ++ [m] } = m := by
  unfold lastMessage
  simp [List.getLast?_concat]

theorem advance_messages (cats : List String) (s : ChatState) (m : String) :
    (advance cats s m).messages = s.messages ++ [m] :=
  (collect_frame cats _).2.2.2.2.2

theorem advance_flag (cats : List String) (s : ChatState) (m : String) :
    (advance cats s m).interests_prompted = false :=
  collect_flag cats _

theorem advance_profile_isSome (cats : List String) (s : ChatState) (m : String)
    (hp : s.profile.isSome = true) :
    (advance cats s m).profile.isSome = true :=
  collect_profile_isSome cats _ hp

theorem advance_token (cats : List String) (s : ChatState) (m : String)
    (hp : s.profile.isSome = true) :
    (advance cats s m).last_processed_message = some (mkToken s.profile_step m) := by
  unfold advance
  rw [collect_token cats { s with messages := s.messages ++ [m] } hp, lastMessage_append]

/-! ### Reachability and the collector invariant -/

/-- The cursor values a collector-owned state can hold once a profile
exists.  `address` and `distance` are unreachable because the interests
step never hands over (its prompted mark is dropped from every returned
state, see `ChatState`), and the terminal marker `none` is only set by the
`distance` arm. -/
def StepInSet (o : Option String) : Prop :=
  o = some "name" ∨ o = some "child_name" ∨ o = some "child_age" ∨
  o = some "child_grade" ∨ o = some "interests"

def CollectorInv (s : ChatState) : Prop :=
  s.interests_prompted = false ∧ (s.profile.isSome = true → StepInSet s.profile_step)

theorem inv_collect (cats : List String) (s : ChatState)
    (h : CollectorInv s) : CollectorInv (collect_profile_node cats s) := by
  obtain ⟨hflag, hstep⟩ := h
  constructor
  · exact collect_flag cats s
  · intro _
    unfold collect_profile_node
    cases hq : s.profile with
    | none => simp only [hq]; exact Or.inl rfl
    | some p =>
      have hs : StepInSet s.profile_step := hstep (by rw [hq]; rfl)
      simp only [hq]
      split
      · exact hs
      · rcases hs with h1 | h1 | h1 | h1 | h1 <;>
          simp only [h1, Option.some.injEq, String.reduceEq, reduceIte]
        · rcases (collectName_props _ p (lastMessage s)).2.2 with h2 | h2
          · rw [h2]; exact Or.inr (Or.inl rfl)
          · rw [h2]; exact Or.inl rfl
        · rw [(collectChildName_props _ p (lastMessage s)).2.2]
          exact Or.inr (Or.inr (Or.inl rfl))
        · rcases (collectChildAge_props _ p (lastMessage s)).2.2 with h2 | h2
          · rw [h2]; exact Or.inr (Or.inr (Or.inr (Or.inl rfl)))
          · rw [h2]; exact Or.inr (Or.inr (Or.inl rfl))
        · rcases (collectChildGrade_props _ p (lastMessage s)).2.2 with h2 | h2
          · rw [h2]; exact Or.inr (Or.inr (Or.inr (Or.inr rfl)))
          · rw [h2]; exact Or.inr (Or.inr (Or.inr (Or.inl rfl)))
        · rw [hflag, collectInterests_step_menu]
          exact Or.inr (Or.inr (Or.inr (Or.inr rfl)))

/-- The conversation states reachable from a fresh session by the
collector's per-turn advance, with arbitrary messages and arbitrary
external category lists. -/
inductive Reachable : ChatState → Prop where
  | init (sid : String) : Reachable (initialState sid)
  | step (cats : List String) (m : String) {s : ChatState} :
      Reachable s → Reachable (advance cats s m)

/-- The invariant transfers along one advance (the appended message touches
none of the fields the invariant mentions). -/
theorem inv_advance (cats : List String) (m : String) (s : ChatState)
    (h : CollectorInv s) : CollectorInv (advance cats s m) :=
  inv_collect cats { s with messages := s.messages ++ [m] } ⟨h.1, h.2⟩

/-- Every reachable state satisfies the collector invariant. -/
theorem reachable_inv {s : ChatState} (h : Reachable s) : CollectorInv s := by
  induction h with
  | init sid =>
    exact ⟨rfl, by intro hp; simp [initialState] at hp⟩
  | step cats m hr ih => exact inv_advance cats m _ ih

/-! ### Concrete fixtures used by the claim theorems -/

/-- An example external category list (non-empty, as in production). -/
def catsEx : List String := ["Sports", "Arts & Crafts", "Science & Technology"]

/-- The full-profile-walk message sequence from the spec. -/
def walkMsgs : List String :=
  ["Hi", "Alex", "Sam", "10", "5", "soccer, art", "1 Main St, Austin, TX", "25"]

/-- The conversation state after the first `n` walk messages. -/
def walkState (n : Nat) : ChatState :=
  (walkMsgs.take n).foldl (advance catsEx) (initialState "sess")

/-- A session right after the welcome turn: fresh profile, cursor at
`name`. -/
def nameStepState : ChatState :=
  { initialState "s-name" with
    messages := ["Hi"]
    profile := some defaultProfile
    profile_step := some "name"
    final_response := some welcomeMsg }

/-- A session parked at the `child_age` step. -/
def ageStepState : ChatState :=
  { initialState "s-age" with
    messages := ["Hi", "Alex", "Sam"]
    profile := some { defaultProfile with name := "Alex", child_name := "Sam" }
    profile_step := some "child_age" }

/-! ### C1 — idempotent replay of the profile collector -/

/-- C1 (counterexample): `advance(advance(s,m)) = advance(s,m)` fails as a
universal law.  At the `name` step with message "Alex", the first advance
stores the name and moves the cursor to `child_name`; re-delivering the
same message is *not* suppressed — the dedup token was recorded for the
`name` step, but the cursor moved, so the token no longer matches and
"Alex" is consumed again as the child's name, moving the cursor to
`child_age`. -/
theorem C1_counterexample :
    (advance catsEx (advance catsEx nameStepState "Alex") "Alex").profile_step
      ≠ (advance catsEx nameStepState "Alex").profile_step := by decide

/-- C1 (amended): replay protection holds exactly when the dedup token
still matches, i.e. when a profile exists and the first advance left the
cursor unchanged (re-prompts on invalid input, the interests menu/waiting
turns, and replayed duplicates themselves).  Then a second delivery of the
same message — under any category list — changes nothing but the appended
message history: the node early-returns the state unchanged. -/
theorem C1_amended_idempotent_replay (cats cats2 : List String) (s : ChatState) (m : String)
    (hp : s.profile.isSome = true)
    (hstep : (advance cats s m).profile_step = s.profile_step) :
    advance cats2 (advance cats s m) m
      = { advance cats s m with messages := (advance cats s m).messages ++ [m] } := by
  have hps : (advance cats s m).profile.isSome = true := advance_profile_isSome cats s m hp
  have htok : (advance cats s m).last_processed_message = some (mkToken s.profile_step m) :=
    advance_token cats s m hp
  have hflag : (advance cats s m).interests_prompted = false := advance_flag cats s m
  rw [← hstep] at htok
  generalize hA : advance cats s m = A at hps htok hflag ⊢
  cases A with
  | mk msgs sid ci sf lsr fr np prof pstep lpm ip =>
    dsimp only at htok hflag hps ⊢
    subst hflag
    cases prof with
    | none => simp at hps
    | some q =>
      subst htok
      unfold advance collect_profile_node
      simp [lastMessage, List.getLast?_concat]

/-- C1 (witness): an invalid age answer leaves the cursor at `child_age`;
replaying it is idempotent up to the duplicated history entry. -/
theorem C1_witness :
    ageStepState.profile.isSome = true ∧
    (advance catsEx ageStepState "abc").profile_step = ageStepState.profile_step ∧
    advance catsEx (advance catsEx ageStepState "abc") "abc"
      = { advance catsEx ageStepState "abc" with
          messages := (advance catsEx ageStepState "abc").messages ++ ["abc"] } :=
  ⟨by decide, by decide,
    C1_amended_idempotent_replay catsEx catsEx ageStepState "abc" (by decide) (by decide)⟩

/-! ### C2 — completion invariant -/

/-- Domain validity of the required profile fields, as the spec words it:
non-empty parent and child names, age in [4,18], grade in [0,12],
non-empty interests and address, positive maximum distance. -/
def ProfileFieldsValid (p : UserProfile) : Prop :=
  p.name ≠ "" ∧ p.child_name ≠ "" ∧ 4 ≤ p.child_age ∧ p.child_age ≤ 18 ∧
  0 ≤ p.child_grade ∧ p.child_grade ≤ 12 ∧ p.interests ≠ [] ∧ p.address ≠ "" ∧
  0 < p.max_distance_miles

/-- Completion as the spec words it: cursor at the terminal marker AND
every required field domain-valid. -/
def ProfileCompleteSpec (s : ChatState) : Prop :=
  s.profile_step = none ∧ ∃ p, s.profile = some p ∧ ProfileFieldsValid p

/-- C2: `_is_profile_complete` returns true iff the cursor is at its
terminal marker and every required field is domain-valid; and no state
reachable from a fresh session via the collector's advance has the cursor
at the terminal marker while a profile field is out of domain.  (The
second part holds because once a profile exists the cursor stays in the
name..interests range: the interests step never hands over — see
`StepInSet` — so the terminal marker, which only the distance arm sets, is
never reached at all.) -/
theorem C2_completion_invariant :
    (∀ s : ChatState, is_profile_complete s = true ↔ ProfileCompleteSpec s) ∧
    (∀ s : ChatState, Reachable s →
      ¬ (s.profile_step = none ∧ ∃ p, s.profile = some p ∧ ¬ ProfileFieldsValid p)) := by
  constructor
  · intro s
    unfold is_profile_complete ProfileCompleteSpec ProfileFieldsValid
    cases hq : s.profile with
    | none => simp
    | some p =>
      simp only [Bool.and_eq_true, decide_eq_true_eq, Bool.not_eq_true',
        List.isEmpty_eq_false_iff_exists_mem, Option.some.injEq]
      constructor
      · rintro ⟨⟨⟨⟨⟨⟨⟨h1, h2⟩, h3, h4⟩, h5, h6⟩, h7⟩, h8⟩, h9⟩, h10⟩
        refine ⟨h10, p, rfl, h1, h2, h3, h4, h5, h6, ?_, h8, h9⟩
        intro hnil
        rw [hnil] at h7
        simp at h7
      · rintro ⟨hnone, q, hq2, h1, h2, h3, h4, h5, h6, h7, h8, h9⟩
        cases hq2
        refine ⟨⟨⟨⟨⟨⟨⟨h1, h2⟩, h3, h4⟩, h5, h6⟩, ?_⟩, h8⟩, h9⟩, hnone⟩
        cases hl : p.interests with
        | nil => exact absurd hl h7
        | cons a l => exact ⟨a, List.mem_cons_self a l⟩
  · intro s hr h
    obtain ⟨hnone, p, hp, _⟩ := h
    have hinv := reachable_inv hr
    have hs := hinv.2 (by rw [hp]; rfl)
    rcases hs with h1 | h1 | h1 | h1 | h1 <;> rw [hnone] at h1 <;> exact Option.noConfusion h1

/-- C2 (witness): the fresh session is reachable and does not violate the
invariant. -/
theorem C2_witness :
    Reachable (initialState "session-0") ∧
    ¬ ((initialState "session-0").profile_step = none ∧
      ∃ p, (initialState "session-0").profile = some p ∧ ¬ ProfileFieldsValid p) :=
  ⟨Reachable.init "session-0", C2_completion_invariant.2 _ (Reachable.init "session-0")⟩

/-! ### C3 — full profile walk with the two-phase interests step -/

set_option maxRecDepth 8000 in
/-- C3 (code bug): the walk `["Hi","Alex","Sam","10","5","soccer, art",
"1 Main St, Austin, TX","25"]` drives the cursor name → child_name →
child_age → child_grade → interests, and then sticks: the sixth message
triggers the category menu without advancing (as claimed), but the
"prompted" mark is written to a dict key that the returned
`CampChatState.dict()` does not carry, so the seventh and eighth turns
re-emit the menu instead of parsing an answer, no interests are ever
stored, the cursor never reaches `address`/`distance`/terminal, and the
profile never completes — contradicting the claimed walk and the repo's
own tests (`test_auto_continue.py`, `test_categories_interests.py`), which
expect the post-menu message to advance collection to the address step. -/
theorem C3_interests_walk_stuck :
    (walkState 5).profile_step = some "interests" ∧
    (walkState 5).final_response = some (interestsSimplePrompt "Sam") ∧
    (walkState 6).profile_step = some "interests" ∧
    (walkState 6).final_response = some (interestsMenuPrompt catsEx "Sam") ∧
    (walkState 7).profile_step = some "interests" ∧
    (walkState 7).final_response = some (interestsMenuPrompt catsEx "Sam") ∧
    (walkState 8).profile_step = some "interests" ∧
    (walkState 8).profile
      = some { defaultProfile with
               name := "Alex"
               child_name := "Sam"
               child_age := 10
               child_grade := 5 } ∧
    is_profile_complete (walkState 8) = false := by decide

/-! ### C4 — name-step validation -/

/-- C4 (counterexample): an empty message at the `name` step is *not*
rejected: the collector stores the empty string as the parent name,
advances the cursor to `child_name`, and prompts for the child's name. -/
theorem C4_counterexample :
    (advance catsEx nameStepState "").profile_step = some "child_name" ∧
    (advance catsEx nameStepState "").profile = some defaultProfile ∧
    (advance catsEx nameStepState "").final_response
      = some "Nice to meet you, ! What\x27s your child\x27s name?" := by decide

/-- C4 (amended): at the `name` step (duplicate suppression aside), if the
stored parent name is still empty the collector stores the message — any
text, empty included — as the parent name and advances to `child_name`;
the re-prompt happens only when the name is already non-empty, and then
the cursor stays at `name`. -/
theorem C4_name_step (cats : List String) (s : ChatState) (p : UserProfile) (m : String)
    (hp : s.profile = some p) (hstep : s.profile_step = some "name")
    (hdup : s.last_processed_message ≠ some (mkToken (some "name") m)) :
    (p.name = "" →
      advance cats s m = { s with
        messages := s.messages ++ [m]
        profile := some { p with name := m }
        profile_step := some "child_name"
        final_response := some ("Nice to meet you, " ++ m ++ "! What\x27s your child\x27s name?")
        last_processed_message := some (mkToken (some "name") m)
        interests_prompted := false }) ∧
    (p.name ≠ "" →
      advance cats s m = { s with
        messages := s.messages ++ [m]
        final_response := some "What\x27s your name?"
        last_processed_message := some (mkToken (some "name") m)
        interests_prompted := false }) := by
  cases s with
  | mk msgs sid ci sf lsr fr np prof pstep lpm ip =>
    dsimp only at hp hstep hdup ⊢
    subst hp
    subst hstep
    unfold advance collect_profile_node
    simp only [lastMessage, List.getLast?_concat, Option.getD_some]
    rw [if_neg hdup]
    simp only [if_true]
    unfold collectName
    constructor
    · intro hname
      rw [if_pos hname]
    · intro hname
      rw [if_neg hname]

/-- C4 (witness): the amended name-step law at a concrete fresh session. -/
theorem C4_witness :
    nameStepState.profile = some defaultProfile ∧
    nameStepState.profile_step = some "name" ∧
    nameStepState.last_processed_message ≠ some (mkToken (some "name") "Alex") ∧
    advance catsEx nameStepState "Alex" = { nameStepState with
      messages := nameStepState.messages ++ ["Alex"]
      profile := some { defaultProfile with name := "Alex" }
      profile_step := some "child_name"
      final_response := some ("Nice to meet you, " ++ "Alex" ++ "! What\x27s your child\x27s name?")
      last_processed_message := some (mkToken (some "name") "Alex")
      interests_prompted := false } :=
  ⟨rfl, rfl, by decide,
    (C4_name_step catsEx nameStepState defaultProfile "Alex" rfl rfl (by decide)).1 rfl⟩

/-! ### C5 — empty-filter identity of the cache filter engine -/

/-- C5: with no filters set (unset or an empty dict — both falsy), the
filter node returns the state, and hence the cached result list,
unchanged. -/
theorem C5_empty_filter_identity (s : ChatState)
    (h : s.search_filters = none ∨ s.search_filters = some []) :
    filter_cached_results_node s = s := by
  unfold filter_cached_results_node
  rcases h with h | h <;> simp [h, filtersFalsy]

/-- A session with one cached camp and no filters. -/
def cachedStateEx : ChatState :=
  { initialState "s-cache" with
    last_search_results := some
      [{ camp_name := some "Camp Redwood"
         description := some "A soccer camp"
         camp_categories := []
         camp_sessions := []
         min_grade := some 3
         max_grade := some 5
         organizations := none
         price := none
         distance_miles := none }] }

/-- C5 (witness): the identity at a concrete cached state. -/
theorem C5_witness :
    (cachedStateEx.search_filters = none ∨ cachedStateEx.search_filters = some []) ∧
    filter_cached_results_node cachedStateEx = cachedStateEx :=
  ⟨Or.inl rfl, C5_empty_filter_identity cachedStateEx (Or.inl rfl)⟩

/-! ### C6 — grade-filter semantics -/

/-- A filter dict carrying only the grade keys that are set. -/
def gradeFilters : Option Int → Option Int → List (String × Json)
  | some a, some b => [("min_grade", Json.num a), ("max_grade", Json.num b)]
  | some a, none => [("min_grade", Json.num a)]
  | none, some b => [("max_grade", Json.num b)]
  | none, none => []

/-- Exclusion as the claim words it: only possible when both camp grades
are present, and then exactly when the camp's `max_grade` is below the
filter's `min_grade` or its `min_grade` is above the filter's
`max_grade`. -/
def gradeExcluded (c : Camp) (fmin fmax : Option Int) : Bool :=
  match c.min_grade, c.max_grade with
  | some cmin, some cmax =>
    (match fmin with
     | some f => decide (cmax < f)
     | none => false) ||
    (match fmax with
     | some f => decide (cmin > f)
     | none => false)
  | _, _ => false

/-- The camp with `min_grade=3, max_grade=5` from the claim. -/
def camp35Ex : Camp :=
  { camp_name := none
    description := none
    camp_categories := []
    camp_sessions := []
    min_grade := some 3
    max_grade := some 5
    organizations := none
    price := none
    distance_miles := none }

/-- The same camp with its grade fields missing. -/
def campNoGradesEx : Camp :=
  { camp35Ex with min_grade := none, max_grade := none }

/-- C6: under a grade-only filter, a camp is kept iff it is not
`gradeExcluded` — in particular the camp 3–5 is excluded by a filter with
`min_grade=6`, kept by `min_grade=5, max_grade=5`, and a camp missing a
grade field is never excluded by any grade filter. -/
theorem C6_grade_filter :
    (∀ (c : Camp) (fmin fmax : Option Int),
      campMatchesE (gradeFilters fmin fmax) c = Except.ok (! gradeExcluded c fmin fmax)) ∧
    campMatchesE (gradeFilters (some 6) none) camp35Ex = Except.ok false ∧
    campMatchesE (gradeFilters (some 5) (some 5)) camp35Ex = Except.ok true ∧
    (∀ fmin fmax : Option Int,
      campMatchesE (gradeFilters fmin fmax) campNoGradesEx = Except.ok true) := by
  have hmain : ∀ (c : Camp) (fmin fmax : Option Int),
      campMatchesE (gradeFilters fmin fmax) c = Except.ok (! gradeExcluded c fmin fmax) := by
    intro c fmin fmax
    have hcat : jget (gradeFilters fmin fmax) "category" = none := by
      cases fmin <;> cases fmax <;> rfl
    have hcity : jget (gradeFilters fmin fmax) "city" = none := by
      cases fmin <;> cases fmax <;> rfl
    have hst : jget (gradeFilters fmin fmax) "state" = none := by
      cases fmin <;> cases fmax <;> rfl
    have hloc : jget (gradeFilters fmin fmax) "location" = none := by
      cases fmin <;> cases fmax <;> rfl
    have hmin : jget (gradeFilters fmin fmax) "min_grade" = fmin.map Json.num := by
      cases fmin <;> cases fmax <;> rfl
    have hmax : jget (gradeFilters fmin fmax) "max_grade" = fmax.map Json.num := by
      cases fmin <;> cases fmax <;> rfl
    unfold campMatchesE categoryAxis locationAxis gradeAxis
    rw [hcat, hcity, hst, hloc, hmin, hmax]
    cases fmin <;> cases fmax <;>
      cases hc1 : c.min_grade <;> cases hc2 : c.max_grade <;>
        (simp [gradeExcluded, truthyOpt, isNotNoneJ, jgradeVal, hc1, hc2,
          decide_not, Bool.not_or] <;>
         (simp only [← decide_not, ← Bool.decide_and, decide_eq_decide]; omega))
  refine ⟨hmain, ?_, ?_, ?_⟩
  · rw [hmain]; rfl
  · rw [hmain]; rfl
  · intro fmin fmax; rw [hmain]; rfl

/-! ### C7 — intent fallback -/

/-- A classifier response whose intent is `filter` but whose
`search_criteria` is not an object. -/
def badCriteriaResp : String :=
  "\x7b\"intent\": \"filter\", \"search_criteria\": 5\x7d"

/-- C7 (counterexample): the fallback is not unconditional.  With no cached
results and extracted intent `filter`, a malformed `search_criteria` value
raises after the override (at `criteria.get`), and the node's error
handler rebuilds the state with intent `general` — not `search`. -/
theorem C7_counterexample :
    extractedIntentOf badCriteriaResp = Except.ok (Json.str "filter") ∧
    hasCachedResults (initialState "s-c7") = false ∧
    (classify_intent_node badCriteriaResp (initialState "s-c7")).current_intent
      = some (Json.str "general") := by decide

/-- C7 (amended): whenever the extracted intent is `filter`, no cached
results exist, and the criteria-to-filters mapping succeeds (so the turn
does not fall to the error handler), the resulting intent is `search`. -/
theorem C7_intent_fallback (r : String) (s : ChatState) (fs : List (String × Json))
    (hintent : extractedIntentOf r = Except.ok (Json.str "filter"))
    (hcache : hasCachedResults s = false)
    (hcrit : criteriaFiltersOf r = Except.ok fs) :
    (classify_intent_node r s).current_intent = some (Json.str "search") := by
  unfold classify_intent_node classifyCore
  rw [hintent, hcache, hcrit]
  simp [Json.isStr]

/-- C7 (witness): the fallback at a well-formed `filter` classification
with no cache. -/
theorem C7_witness :
    extractedIntentOf "\x7b\"intent\": \"filter\"\x7d" = Except.ok (Json.str "filter") ∧
    hasCachedResults (initialState "s-c7w") = false ∧
    criteriaFiltersOf "\x7b\"intent\": \"filter\"\x7d" = Except.ok [] ∧
    (classify_intent_node "\x7b\"intent\": \"filter\"\x7d" (initialState "s-c7w")).current_intent
      = some (Json.str "search") :=
  ⟨by decide, by decide, by decide,
    C7_intent_fallback "\x7b\"intent\": \"filter\"\x7d" (initialState "s-c7w") []
      (by decide) (by decide) (by decide)⟩

/-! ### C8 — malformed-LLM-output handling -/

/-- C8: the classifier strips code fences before parsing, and a response
that still fails to parse (such as `"not json"`) makes the turn classify
as `general` with empty criteria, leaving everything else — filters
included — unchanged; the node is a total function, so no error
propagates.  The last conjunct shows the fence stripping at work: a fenced
JSON document classifies by its unfenced content. -/
theorem C8_malformed_llm :
    (∀ (r : String) (s : ChatState), parseJson (cleanContent r) = none →
      classify_intent_node r s = { s with current_intent := some (Json.str "general") }) ∧
    parseJson (cleanContent "not json") = none ∧
    (∀ s : ChatState,
      (classify_intent_node "```json\n\x7b\"intent\": \"search\"\x7d\n```" s).current_intent
        = some (Json.str "search")) := by
  refine ⟨?_, by decide, ?_⟩
  · intro r s hfail
    have hex : extractedIntentOf r = Except.ok (Json.str "general") := by
      unfold extractedIntentOf intentData
      rw [hfail]
      decide
    unfold classify_intent_node classifyCore
    rw [hex]
    simp [Json.isStr]
  · intro s
    rfl

/-- C8 (witness): the default at the concrete unparseable response. -/
theorem C8_witness :
    parseJson (cleanContent "not json") = none ∧
    classify_intent_node "not json" (initialState "s-c8")
      = { initialState "s-c8" with current_intent := some (Json.str "general") } :=
  ⟨by decide, C8_malformed_llm.1 "not json" (initialState "s-c8") (by decide)⟩

/-! ### C9 — profile-driven pipeline sequencing -/

theorem generate_sql_frame (s : ChatState) :
    (generate_sql_query_node s).last_search_results = s.last_search_results ∧
    (generate_sql_query_node s).profile = s.profile ∧
    (generate_sql_query_node s).messages = s.messages ∧
    (generate_sql_query_node s).profile_step = s.profile_step := by
  unfold generate_sql_query_node
  split <;> exact ⟨rfl, rfl, rfl, rfl⟩

theorem search_db_frame (db : List Camp) (s : ChatState) :
    (search_database_node db s).search_filters = s.search_filters ∧
    (search_database_node db s).profile = s.profile ∧
    (search_database_node db s).messages = s.messages ∧
    (search_database_node db s).profile_step = s.profile_step := by
  unfold search_database_node
  split
  · exact ⟨rfl, rfl, rfl, rfl⟩
  · split <;> exact ⟨rfl, rfl, rfl, rfl⟩

/-- With filters set and a profile present, the search node replaces the
cache with exactly the external result. -/
theorem search_db_results (db : List Camp) (s : ChatState)
    (hf : filtersFalsy s.search_filters = false) (hp : s.profile.isSome = true) :
    (search_database_node db s).last_search_results = some db := by
  unfold search_database_node
  simp only [hf, Bool.false_eq_true, if_false]
  cases hq : s.profile with
  | none => rw [hq] at hp; simp at hp
  | some p => simp only [hq]

theorem formatTableCore_fields (s : ChatState) (r : ChatState)
    (h : formatTableCore s = Except.ok r) :
    r.search_filters = s.search_filters ∧ r.last_search_results = s.last_search_results ∧
    r.profile = s.profile ∧ r.messages = s.messages ∧ r.profile_step = s.profile_step := by
  unfold formatTableCore at h
  repeat' split at h
  all_goals first
    | exact Except.noConfusion h
    | (injection h with h2; subst h2; exact ⟨rfl, rfl, rfl, rfl, rfl⟩)

theorem format_frame (s : ChatState) :
    (format_table_node s).search_filters = s.search_filters ∧
    (format_table_node s).last_search_results = s.last_search_results ∧
    (format_table_node s).profile = s.profile ∧
    (format_table_node s).messages = s.messages ∧
    (format_table_node s).profile_step = s.profile_step := by
  unfold format_table_node
  split
  · next r h => exact formatTableCore_fields s r h
  · exact ⟨rfl, rfl, rfl, rfl, rfl⟩

/-- C9: the orchestrator runs exactly one stage per turn, chosen by the
first incomplete stage — profile collection while the profile is
incomplete, filter derivation while no filters exist, one database search
while no results exist, table formatting while the response is not the
rendered table ("I found ..." is the code's rendered-ness test) — and the
executed stage leaves all downstream/upstream state of the other stages
untouched; when everything is done it returns the state unchanged. -/
theorem C9_pipeline_stages (cats : List String) (db : List Camp) (s : ChatState) :
    (is_profile_complete s = false →
      process_request_node cats db s = collect_profile_node cats s ∧
      (process_request_node cats db s).search_filters = s.search_filters ∧
      (process_request_node cats db s).last_search_results = s.last_search_results ∧
      (process_request_node cats db s).current_intent = s.current_intent) ∧
    (is_profile_complete s = true → filtersFalsy s.search_filters = true →
      process_request_node cats db s = generate_sql_query_node s ∧
      (process_request_node cats db s).last_search_results = s.last_search_results ∧
      (process_request_node cats db s).profile = s.profile ∧
      (process_request_node cats db s).messages = s.messages) ∧
    (is_profile_complete s = true → filtersFalsy s.search_filters = false →
      resultsFalsy s.last_search_results = true →
      process_request_node cats db s = search_database_node db s ∧
      (process_request_node cats db s).search_filters = s.search_filters ∧
      (process_request_node cats db s).profile = s.profile ∧
      (process_request_node cats db s).last_search_results = some db) ∧
    (is_profile_complete s = true → filtersFalsy s.search_filters = false →
      resultsFalsy s.last_search_results = false →
      responseNotRendered s.final_response = true →
      process_request_node cats db s = format_table_node s ∧
      (process_request_node cats db s).search_filters = s.search_filters ∧
      (process_request_node cats db s).last_search_results = s.last_search_results ∧
      (process_request_node cats db s).profile = s.profile) ∧
    (is_profile_complete s = true → filtersFalsy s.search_filters = false →
      resultsFalsy s.last_search_results = false →
      responseNotRendered s.final_response = false →
      process_request_node cats db s = s) := by
  refine ⟨?_, ?_, ?_, ?_, ?_⟩
  · intro h1
    have heq : process_request_node cats db s = collect_profile_node cats s := by
      unfold process_request_node
      simp [h1]
    have hf := collect_frame cats s
    exact ⟨heq, by rw [heq]; exact hf.1, by rw [heq]; exact hf.2.1, by rw [heq]; exact hf.2.2.1⟩
  · intro h1 h2
    have heq : process_request_node cats db s = generate_sql_query_node s := by
      unfold process_request_node
      simp [h1, h2]
    have hf := generate_sql_frame s
    exact ⟨heq, by rw [heq]; exact hf.1, by rw [heq]; exact hf.2.1, by rw [heq]; exact hf.2.2.1⟩
  · intro h1 h2 h3
    have hp : s.profile.isSome = true := by
      unfold is_profile_complete at h1
      cases hq : s.profile with
      | none => rw [hq] at h1; simp at h1
      | some p => rfl
    have heq : process_request_node cats db s = search_database_node db s := by
      unfold process_request_node
      simp [h1, h2, h3]
    have hf := search_db_frame db s
    exact ⟨heq, by rw [heq]; exact hf.1, by rw [heq]; exact hf.2.1,
      by rw [heq]; exact search_db_results db s h2 hp⟩
  · intro h1 h2 h3 h4
    have heq : process_request_node cats db s = format_table_node s := by
      unfold process_request_node
      simp [h1, h2, h3, h4]
    have hf := format_frame s
    exact ⟨heq, by rw [heq]; exact hf.1, by rw [heq]; exact hf.2.1, by rw [heq]; exact hf.2.2.1⟩
  · intro h1 h2 h3 h4
    unfold process_request_node
    simp [h1, h2, h3, h4]

/-- A finished conversation: profile complete, filters derived, results
cached, table rendered. -/
def doneState : ChatState :=
  { initialState "s-done" with
    messages := ["hi"]
    profile := some
      { name := "Alex"
        child_name := "Sam"
        child_age := 10
        child_grade := 5
        interests := ["soccer"]
        address := "1 Main St"
        max_distance_miles := 25 }
    profile_step := none
    search_filters := some [("category", Json.null)]
    last_search_results := some [camp35Ex]
    final_response := some "I found 1 camps that match Sam\x27s profile!" }

/-- C9 (witness): the terminal short-circuit at a finished conversation. -/
theorem C9_witness :
    is_profile_complete doneState = true ∧
    filtersFalsy doneState.search_filters = false ∧
    resultsFalsy doneState.last_search_results = false ∧
    responseNotRendered doneState.final_response = false ∧
    process_request_node catsEx [] doneState = doneState :=
  ⟨by decide, by decide, by decide, by decide,
    (C9_pipeline_stages catsEx [] doneState).2.2.2.2
      (by decide) (by decide) (by decide) (by decide)⟩

/-! ### C10 — frame property of intent classification -/

/-- A classifier response with a well-formed `search` intent but a
non-string truthy location value in the criteria. -/
def locIntResp : String :=
  "\x7b\"intent\": \"search\", \"search_criteria\": \x7b\"location\": 7\x7d\x7d"

/-- A session holding filters from a previous turn. -/
def prevFiltersState : ChatState :=
  { initialState "s-c10" with search_filters := some [("category", Json.str "soccer")] }

/-- C10 (counterexample): the filter replacement is not unconditional.
Here the extracted intent is `search`, yet the previous turn's filters
survive: the criteria's location value `7` raises at `"," in location`,
and the error handler rebuilds the state from the original dict, keeping
the old `search_filters` (and setting intent to `general`). -/
theorem C10_counterexample :
    extractedIntentOf locIntResp = Except.ok (Json.str "search") ∧
    prevFiltersState.search_filters = some [("category", Json.str "soccer")] ∧
    (classify_intent_node locIntResp prevFiltersState).search_filters
      = some [("category", Json.str "soccer")] ∧
    (classify_intent_node locIntResp prevFiltersState).current_intent
      = some (Json.str "general") := by decide

theorem classifyCore_frame (r : String) (s s2 : ChatState)
    (h : classifyCore r s = Except.ok s2) :
    s2.messages = s.messages ∧
    s2.last_search_results = s.last_search_results ∧
    s2.session_id = s.session_id ∧
    s2.profile = s.profile ∧
    s2.profile_step = s.profile_step ∧
    s2.needs_profile = s.needs_profile ∧
    s2.final_response = s.final_response ∧
    s2.last_processed_message = s.last_processed_message ∧
    s2.interests_prompted = s.interests_prompted := by
  unfold classifyCore at h
  cases hex : extractedIntentOf r with
  | error e => rw [hex] at h; cases h
  | ok ex0 =>
    rw [hex] at h
    dsimp only at h
    repeat' split at h
    all_goals cases h
    all_goals exact ⟨rfl, rfl, rfl, rfl, rfl, rfl, rfl, rfl, rfl⟩

theorem classify_frame_fields (r : String) (s : ChatState) :
    (classify_intent_node r s).messages = s.messages ∧
    (classify_intent_node r s).last_search_results = s.last_search_results ∧
    (classify_intent_node r s).session_id = s.session_id ∧
    (classify_intent_node r s).profile = s.profile ∧
    (classify_intent_node r s).profile_step = s.profile_step ∧
    (classify_intent_node r s).needs_profile = s.needs_profile ∧
    (classify_intent_node r s).final_response = s.final_response ∧
    (classify_intent_node r s).last_processed_message = s.last_processed_message ∧
    (classify_intent_node r s).interests_prompted = s.interests_prompted := by
  unfold classify_intent_node
  cases h : classifyCore r s with
  | error e => exact ⟨rfl, rfl, rfl, rfl, rfl, rfl, rfl, rfl, rfl⟩
  | ok s2 => exact classifyCore_frame r s s2 h

theorem classify_filters_replaced (r : String) (s : ChatState) (fs : List (String × Json))
    (hfs : criteriaFiltersOf r = Except.ok fs)
    (hint : extractedIntentOf r = Except.ok (Json.str "search") ∨
      extractedIntentOf r = Except.ok (Json.str "filter")) :
    (classify_intent_node r s).search_filters = some fs := by
  unfold classify_intent_node classifyCore
  rcases hint with h | h
  · rw [h, hfs]
    rfl
  · rw [h, hfs]
    cases hcache : hasCachedResults s <;> rfl

theorem classify_filters_unchanged (r : String) (s : ChatState)
    (hall : ∀ j, extractedIntentOf r = Except.ok j →
      j.isStr "search" = false ∧ j.isStr "filter" = false) :
    (classify_intent_node r s).search_filters = s.search_filters := by
  unfold classify_intent_node classifyCore
  cases hex : extractedIntentOf r with
  | error e => rfl
  | ok ex0 =>
    obtain ⟨ha, hb⟩ := hall ex0 hex
    dsimp only
    simp only [hb, Bool.false_and, Bool.false_eq_true, if_false, ha, Bool.or_self]

theorem classify_error_path (r : String) (s : ChatState)
    (hint : extractedIntentOf r = Except.ok (Json.str "search") ∨
      extractedIntentOf r = Except.ok (Json.str "filter"))
    (hbad : criteriaFiltersOf r = Except.error ()) :
    (classify_intent_node r s).search_filters = s.search_filters ∧
    (classify_intent_node r s).current_intent = some (Json.str "general") := by
  unfold classify_intent_node classifyCore
  rcases hint with h | h
  · rw [h, hbad]
    exact ⟨rfl, rfl⟩
  · rw [h, hbad]
    cases hcache : hasCachedResults s <;> exact ⟨rfl, rfl⟩

/-- C10 (amended): the classifier writes only `current_intent` and
`search_filters` — message history, cached results, session id, profile,
cursor and the rest are untouched on every path, the error path included.
When the extracted intent is `search` or `filter` *and* the
criteria-to-filters mapping succeeds, `search_filters` is replaced by the
fresh criteria-derived set, discarding any previous filters; when the
extracted intent is neither, the previous filters are untouched; and when
the mapping raises, the error path also leaves them untouched and yields
intent `general`. -/
theorem C10_classify_frame (r : String) (s : ChatState) :
    (classify_intent_node r s).messages = s.messages ∧
    (classify_intent_node r s).last_search_results = s.last_search_results ∧
    (classify_intent_node r s).session_id = s.session_id ∧
    (classify_intent_node r s).profile = s.profile ∧
    (classify_intent_node r s).profile_step = s.profile_step ∧
    (classify_intent_node r s).needs_profile = s.needs_profile ∧
    (classify_intent_node r s).final_response = s.final_response ∧
    (classify_intent_node r s).last_processed_message = s.last_processed_message ∧
    (classify_intent_node r s).interests_prompted = s.interests_prompted ∧
    (∀ fs, criteriaFiltersOf r = Except.ok fs →
      (extractedIntentOf r = Except.ok (Json.str "search") ∨
        extractedIntentOf r = Except.ok (Json.str "filter")) →
      (classify_intent_node r s).search_filters = some fs) ∧
    ((∀ j, extractedIntentOf r = Except.ok j →
        j.isStr "search" = false ∧ j.isStr "filter" = false) →
      (classify_intent_node r s).search_filters = s.search_filters) ∧
    ((extractedIntentOf r = Except.ok (Json.str "search") ∨
        extractedIntentOf r = Except.ok (Json.str "filter")) →
      criteriaFiltersOf r = Except.error () →
      (classify_intent_node r s).search_filters = s.search_filters ∧
      (classify_intent_node r s).current_intent = some (Json.str "general")) := by
  obtain ⟨f1, f2, f3, f4, f5, f6, f7, f8, f9⟩ := classify_frame_fields r s
  exact ⟨f1, f2, f3, f4, f5, f6, f7, f8, f9,
    fun fs hfs hint => classify_filters_replaced r s fs hfs hint,
    fun hall => classify_filters_unchanged r s hall,
    fun hint hbad => classify_error_path r s hint hbad⟩

/-- C10 (witness): a well-formed `search` classification replaces the
previous filters with the fresh criteria-derived set, and the frame fields
survive. -/
theorem C10_witness :
    criteriaFiltersOf "\x7b\"intent\": \"search\", \"search_criteria\": \x7b\"activity\": \"art\"\x7d\x7d"
      = Except.ok [("category", Json.str "art")] ∧
    extractedIntentOf "\x7b\"intent\": \"search\", \"search_criteria\": \x7b\"activity\": \"art\"\x7d\x7d"
      = Except.ok (Json.str "search") ∧
    (classify_intent_node
        "\x7b\"intent\": \"search\", \"search_criteria\": \x7b\"activity\": \"art\"\x7d\x7d"
        prevFiltersState).search_filters = some [("category", Json.str "art")] ∧
    (classify_intent_node
        "\x7b\"intent\": \"search\", \"search_criteria\": \x7b\"activity\": \"art\"\x7d\x7d"
        prevFiltersState).last_search_results = prevFiltersState.last_search_results :=
  ⟨by decide, by decide,
    (C10_classify_frame
        "\x7b\"intent\": \"search\", \"search_criteria\": \x7b\"activity\": \"art\"\x7d\x7d"
        prevFiltersState).2.2.2.2.2.2.2.2.2.1
      [("category", Json.str "art")] (by decide) (Or.inl (by decide)),
    (C10_classify_frame
        "\x7b\"intent\": \"search\", \"search_criteria\": \x7b\"activity\": \"art\"\x7d\x7d"
        prevFiltersState).2.1⟩
